import Mathlib

/-!
Shallow embedding of the skillscore evaluation engine
(src/rubric.ts, src/scorer.ts, ParsedSkill from the skill parser).

Numbers are modelled as `ℚ` (all arithmetic performed by the engine —
sums of the constants 0.25/0.5/1/2/3, weights 0.05..0.20, divisions by
10 and 100 — is exact in the rationals).  JavaScript strings are
modelled as Lean `String`, with the handful of string/regex operations
the scorer uses translated explicitly below.  `new Date()` is modelled
as a caller-supplied `timestamp` parameter.
-/

/-! ### JavaScript string primitives -/

/-- `pat` occurs as a contiguous run inside the second list. -/
def subOcc (pat : List Char) : List Char → Bool
  | [] => pat.isEmpty
  | c :: rest => pat.isPrefixOf (c :: rest) || subOcc pat rest

/-- `s.includes(sub)` on JS strings. -/
def jsIncludes (s sub : String) : Bool := subOcc sub.toList s.toList

/-- ASCII lower-casing of one character, as `String.prototype.toLowerCase`
acts on the ASCII inputs the scorer deals with. -/
def jsToLowerChar (c : Char) : Char :=
  if 'A' ≤ c ∧ c ≤ 'Z' then Char.ofNat (c.toNat + 32) else c

/-- `s.toLowerCase()`. -/
def jsToLower (s : String) : String := ⟨s.toList.map jsToLowerChar⟩

/-- JS `\s` (ASCII part). -/
def jsIsSpace (c : Char) : Bool :=
  c == ' ' || c == '\t' || c == '\n' || c == '\r' || c == '\x0b' || c == '\x0c'

/-- JS `\w`, i.e. `[A-Za-z0-9_]`. -/
def isWordChar (c : Char) : Bool := c.isAlphanum || c == '_'

/-- `Math.round` (round half towards positive infinity). -/
def jsRound (q : ℚ) : ℤ := ⌊q + 1/2⌋

/-- Splitter for `s.split(/\s+/)`: `skipping` records being inside a
maximal whitespace run (one field boundary per run), `acc` holds the
current field reversed. -/
def splitWSRun (skipping : Bool) (acc : List Char) : List Char → List (List Char)
  | [] => [acc.reverse]
  | c :: rest =>
    if jsIsSpace c then
      if skipping then splitWSRun true [] rest
      else acc.reverse :: splitWSRun true [] rest
    else splitWSRun false (c :: acc) rest

/-- `s.split(/\s+/)` (leading/trailing whitespace yields empty fields,
`"".split(/\s+/)` yields `[""]`, exactly as in JS). -/
def splitWS (s : String) : List String :=
  (splitWSRun false [] s.toList).map (fun l => String.mk l)

/-- Splitter for `s.split(sep)` with a single-character separator: every
separator occurrence starts a new field (`"a  b".split(" ") = ["a","","b"]`,
`"".split(" ") = [""]`). -/
def splitOnCharRun (sep : Char) (acc : List Char) : List Char → List (List Char)
  | [] => [acc.reverse]
  | c :: rest =>
    if c == sep then acc.reverse :: splitOnCharRun sep [] rest
    else splitOnCharRun sep (c :: acc) rest

/-- `s.split(' ')`. -/
def splitSpace (s : String) : List String :=
  (splitOnCharRun ' ' [] s.toList).map (fun l => String.mk l)

/-- Case-insensitive match of word `w` against the head of `s`;
returns the remainder on success. -/
def stripCIHead : List Char → List Char → Option (List Char)
  | [], s => some s
  | _ :: _, [] => none
  | w :: ws, c :: cs =>
    if jsToLowerChar c == jsToLowerChar w then stripCIHead ws cs else none

/-- `w` matches at the head of `s` (case-insensitively) and is followed by a
word boundary. -/
def wordAtHead (w : List Char) (s : List Char) : Bool :=
  match stripCIHead w s with
  | some [] => true
  | some (c :: _) => !isWordChar c
  | none => false

/-- Scan for a whole-word, case-insensitive occurrence of any of `ws`
(`prevIsWord` records whether the previous character was a word character,
for the leading `\b`). -/
def hasWordScan (ws : List (List Char)) : Bool → List Char → Bool
  | _, [] => false
  | prevIsWord, c :: rest =>
    (!prevIsWord && ws.any (fun w => wordAtHead w (c :: rest))) ||
      hasWordScan ws (isWordChar c) rest

/-- `s.match(/\b(w1|w2|...)\b/gi) !== null` for a list of letter-only words. -/
def hasWordCI (ws : List String) (s : String) : Bool :=
  hasWordScan (ws.map String.toList) false s.toList

/-- `/\d+\./.test(s)`: some digit is immediately followed by a dot. -/
def hasDigitDot : List Char → Bool
  | c1 :: c2 :: rest => (c1.isDigit && c2 == '.') || hasDigitDot (c2 :: rest)
  | _ => false

/-- The backtick character. -/
def tickChar : Char := Char.ofNat 96

/-- Three backticks. -/
def ticks3 : List Char := [tickChar, tickChar, tickChar]

/-- Number of non-overlapping occurrences of ```` ``` ```` ,
as `(s.match(/```/g) || []).length` (leftmost scan, resume after each
match, advance one character on failure). -/
def countTripleTicks : List Char → Nat
  | c1 :: c2 :: c3 :: rest =>
    if c1 == tickChar && c2 == tickChar && c3 == tickChar then
      1 + countTripleTicks rest
    else countTripleTicks (c2 :: c3 :: rest)
  | _ => 0

/-- Remainder of `s` after the first occurrence of `pat`
(`none` when `pat` does not occur). -/
def splitFirst (pat : List Char) : List Char → Option (List Char)
  | [] => if pat.isEmpty then some [] else none
  | c :: rest =>
    if pat.isPrefixOf (c :: rest) then some ((c :: rest).drop pat.length)
    else splitFirst pat rest

/-- `[a-z_-]` (character class of the `/`[a-z_-]+`/` tool-name regex). -/
def isTokChar (c : Char) : Bool :=
  ('a' ≤ c && c ≤ 'z') || c == '_' || c == '-'

/-- After an opening backtick: one or more `[a-z_-]` characters followed by a
closing backtick. -/
def tickTokenAt : List Char → Bool
  | c :: rest =>
    isTokChar c &&
      (match rest.dropWhile isTokChar with
       | d :: _ => d == tickChar
       | [] => false)
  | [] => false

/-- ``s.match(/`[a-z_-]+`/) !== null``. -/
def hasTickToken : List Char → Bool
  | [] => false
  | c :: rest => (c == tickChar && tickTokenAt rest) || hasTickToken rest

/-! ### Rubric table (src/rubric.ts) -/

structure ScoringCategory where
  id : String
  name : String
  description : String
  weight : ℚ
  maxScore : ℚ
deriving DecidableEq, Repr

def catStructure : ScoringCategory :=
  { id := "structure", name := "Structure",
    description := "SKILL.md exists, clear name/description, follows conventions, clean file organization",
    weight := 0.15, maxScore := 10 }

def catClarity : ScoringCategory :=
  { id := "clarity", name := "Clarity",
    description := "Specific actionable instructions, no ambiguity, logical order, agent knows what to do",
    weight := 0.20, maxScore := 10 }

def catSafety : ScoringCategory :=
  { id := "safety", name := "Safety",
    description := "No destructive commands without confirmation, no secret exfiltration, no unbounded loops, respects permissions",
    weight := 0.20, maxScore := 10 }

def catDependencies : ScoringCategory :=
  { id := "dependencies", name := "Dependencies",
    description := "Lists required tools/APIs, checks before running, install instructions, states env vars",
    weight := 0.10, maxScore := 10 }

def catErrorHandling : ScoringCategory :=
  { id := "errorHandling", name := "Error Handling",
    description := "Failure instructions, fallbacks, no silent failures, edge cases",
    weight := 0.10, maxScore := 10 }

def catScope : ScoringCategory :=
  { id := "scope", name := "Scope",
    description := "Single responsibility, accurate description, specific triggers, no conflicts",
    weight := 0.10, maxScore := 10 }

def catDocumentation : ScoringCategory :=
  { id := "documentation", name := "Documentation",
    description := "Usage examples, expected I/O, edge cases, troubleshooting",
    weight := 0.10, maxScore := 10 }

def catPortability : ScoringCategory :=
  { id := "portability", name := "Portability",
    description := "Cross-platform, no hardcoded paths, notes limitations, relative paths",
    weight := 0.05, maxScore := 10 }

def SCORING_CATEGORIES : List ScoringCategory :=
  [catStructure, catClarity, catSafety, catDependencies,
   catErrorHandling, catScope, catDocumentation, catPortability]

/-- Module-load validation of rubric.ts lines 68-72: the `throw` is modelled
as `Except.error`. -/
def validateCategories (cats : List ScoringCategory) : Except String (List ScoringCategory) :=
  let totalWeight := cats.foldl (fun sum cat => sum + cat.weight) 0
  if |totalWeight - 1.0| > 0.001 then
    Except.error ("SCORING_CATEGORIES weights must sum to 1.0, got " ++ toString totalWeight)
  else
    Except.ok cats

/-- The rubric table as it becomes available to any importer of rubric.ts:
the validation has run (an exception at load time prevents any scoring). -/
def loadedCategories : Except String (List ScoringCategory) :=
  validateCategories SCORING_CATEGORIES

/-- rubric.ts `getLetterGrade`. -/
def getLetterGrade (score : ℚ) : String :=
  if score ≥ 97 then "A+"
  else if score ≥ 93 then "A"
  else if score ≥ 90 then "A-"
  else if score ≥ 87 then "B+"
  else if score ≥ 83 then "B"
  else if score ≥ 80 then "B-"
  else if score ≥ 77 then "C+"
  else if score ≥ 73 then "C"
  else if score ≥ 70 then "C-"
  else if score ≥ 67 then "D+"
  else if score ≥ 65 then "D"
  else if score ≥ 60 then "D-"
  else "F"

/-- Ranking of the 13 letter grades, failing grade lowest (used only to state
grade monotonicity). -/
def gradeRank (g : String) : ℕ :=
  if g = "A+" then 12
  else if g = "A" then 11
  else if g = "A-" then 10
  else if g = "B+" then 9
  else if g = "B" then 8
  else if g = "B-" then 7
  else if g = "C+" then 6
  else if g = "C" then 5
  else if g = "C-" then 4
  else if g = "D+" then 3
  else if g = "D" then 2
  else if g = "D-" then 1
  else 0

/-! ### Data model (ParsedSkill from the skill parser, score records from
src/scorer.ts) -/

structure FileStructure where
  hasSkillMd : Bool
  hasReadme : Bool
  hasPackageJson : Bool
  hasScripts : Bool
  totalFiles : Nat
  directories : List String
  fileTypes : List (String × Nat)
deriving DecidableEq, Repr

/-- `ParsedSkill` (the untyped, scorer-unused `metadata: any` field is
omitted; `structure` is a Lean keyword, so that field is named `struct`). -/
structure ParsedSkill where
  skillPath : String
  skillMdExists : Bool
  skillMdContent : String
  name : String
  description : String
  files : List String
  struct : FileStructure
deriving DecidableEq, Repr

inductive FindingType
  | pass
  | fail
  | warning
  | info
deriving DecidableEq, Repr

structure Finding where
  type : FindingType
  message : String
  points : ℚ
deriving DecidableEq, Repr

structure CategoryScore where
  category : ScoringCategory
  score : ℚ
  maxScore : ℚ
  percentage : ℚ
  findings : List Finding
  weightedScore : ℚ
deriving DecidableEq, Repr

structure SkillScore where
  skill : ParsedSkill
  categoryScores : List CategoryScore
  totalScore : ℚ
  maxTotalScore : ℚ
  percentage : ℚ
  letterGrade : String
  timestamp : ℚ
deriving DecidableEq, Repr

/-- The `{ score, findings }` pair each category scorer returns. -/
structure ScoreResult where
  score : ℚ
  findings : List Finding
deriving DecidableEq, Repr

/-- Sum of the `points` fields of a findings list. -/
def sumPoints (fs : List Finding) : ℚ := (fs.map (fun f => f.points)).sum

/-! ### Structure scorer (scorer.ts `scoreStructure`)

Each sub-check of a scorer is translated as a function returning the pair
(points added to `score`, finding pushed); the scorer sums the first
components and collects the second, exactly the effect of the sequential
`score += n; findings.push({ ..., points: n })` blocks in the source. -/

/-- // SKILL.md exists (3 points) -/
def structureCheckExists (skill : ParsedSkill) : ℚ × Finding :=
  if skill.skillMdExists then (3, ⟨.pass, "SKILL.md file exists", 3⟩)
  else (0, ⟨.fail, "SKILL.md file is missing", 0⟩)

/-- // Has name (2 points) -/
def structureCheckName (skill : ParsedSkill) : ℚ × Finding :=
  if skill.name.length > 0 then
    (2, ⟨.pass, "Clear skill name: \"" ++ skill.name ++ "\"", 2⟩)
  else (0, ⟨.fail, "No clear skill name found", 0⟩)

/-- // Has description (2 points) -/
def structureCheckDescription (skill : ParsedSkill) : ℚ × Finding :=
  if skill.description.length > 20 then (2, ⟨.pass, "Clear description provided", 2⟩)
  else if skill.description.length > 0 then (1, ⟨.warning, "Description is very brief", 1⟩)
  else (0, ⟨.fail, "No description found", 0⟩)

/-- // File organization (1 point) -/
def structureCheckOrganization (skill : ParsedSkill) : ℚ × Finding :=
  let orgScore : ℚ :=
    (if skill.struct.totalFiles ≤ 20 then 0.25 else 0) +
    (if skill.struct.directories.length ≤ 5 then 0.25 else 0) +
    (if !(skill.files.any (fun f =>
        jsIncludes f "tmp" || jsIncludes f "temp" || jsIncludes f ".log")) then 0.5 else 0)
  let orgPoints : ℚ := min ((jsRound (orgScore * 2) : ℚ) / 2) 1
  (orgPoints,
   ⟨if orgScore ≥ 0.75 then .pass else if orgScore ≥ 0.5 then .warning else .fail,
    "File organization: " ++ toString skill.struct.totalFiles ++ " files, " ++
      toString skill.struct.directories.length ++ " directories",
    orgPoints⟩)

def outputPatterns : List String :=
  ["output", "artifact", "write to", "save to", "generates", "produces",
   "/output", "result file", "deliverable"]

/-- // Artifact output spec (1 point) -/
def structureCheckOutputSpec (skill : ParsedSkill) : ℚ × Finding :=
  if outputPatterns.any (fun p => jsIncludes (jsToLower skill.skillMdContent) p) then
    (1, ⟨.pass, "Defines output location or artifacts", 1⟩)
  else (0, ⟨.fail, "No output/artifact specification found", 0⟩)

/-- // Follows conventions (1 point) -/
def structureCheckConventions (skill : ParsedSkill) : ℚ × Finding :=
  let conventionScore : ℚ :=
    (if skill.skillMdExists then 0.5 else 0) +
    (if jsIncludes skill.skillMdContent "# " || jsIncludes skill.skillMdContent "## "
     then 0.5 else 0)
  (conventionScore,
   ⟨if conventionScore ≥ 0.5 then .pass else .warning,
    "Convention compliance: " ++
      (if conventionScore ≥ 0.5 then "follows" else "partially follows") ++
      " standard format",
    conventionScore⟩)

def scoreStructure (skill : ParsedSkill) : ScoreResult :=
  let c1 := structureCheckExists skill
  let c2 := structureCheckName skill
  let c3 := structureCheckDescription skill
  let c4 := structureCheckOrganization skill
  let c5 := structureCheckOutputSpec skill
  let c6 := structureCheckConventions skill
  { score := min (c1.1 + c2.1 + c3.1 + c4.1 + c5.1 + c6.1) 10,
    findings := [c1.2, c2.2, c3.2, c4.2, c5.2, c6.2] }

/-! ### Clarity scorer (scorer.ts `scoreClarity`) -/

/-- // Specific instructions (3 points) -/
def clarityCheckSpecific (content : String) : ℚ × Finding :=
  let hasSteps := jsIncludes content "step" || jsIncludes content "1." ||
    jsIncludes content "-"
  let hasCommands := jsIncludes content "`" || jsIncludes content "exec" ||
    jsIncludes content "run"
  if hasSteps && hasCommands then
    (3, ⟨.pass, "Contains specific step-by-step instructions with commands", 3⟩)
  else if hasSteps || hasCommands then
    (2, ⟨.warning, "Has some specific instructions but could be clearer", 2⟩)
  else (0, ⟨.fail, "Instructions lack specificity and clear steps", 0⟩)

def ambiguousWords : List String :=
  ["maybe", "might", "could", "perhaps", "possibly", "sometimes"]

/-- // No ambiguity (3 points) -/
def clarityCheckAmbiguity (content : String) : ℚ × Finding :=
  let ambiguityCount := (ambiguousWords.filter (fun w => jsIncludes content w)).length
  if ambiguityCount = 0 then (3, ⟨.pass, "No ambiguous language detected", 3⟩)
  else if ambiguityCount ≤ 2 then
    (2, ⟨.warning, "Some ambiguous language detected (" ++ toString ambiguityCount ++
      " instances)", 2⟩)
  else
    (1, ⟨.fail, "Multiple ambiguous words found (" ++ toString ambiguityCount ++
      " instances)", 1⟩)

/-- // Logical order (2 points); the numbered-steps regex runs on the
original-case content. -/
def clarityCheckOrder (origContent content : String) : ℚ × Finding :=
  let hasNumberedSteps := hasDigitDot origContent.toList
  let hasOrderWords := jsIncludes content "first" || jsIncludes content "then" ||
    jsIncludes content "next"
  if hasNumberedSteps || hasOrderWords then
    (2, ⟨.pass, "Instructions follow logical order", 2⟩)
  else (1, ⟨.warning, "Could benefit from clearer ordering of steps", 1⟩)

/-- // Agent understanding (2 points) -/
def clarityCheckAgent (content : String) : ℚ × Finding :=
  let hasTriggers := jsIncludes content "when" || jsIncludes content "if" ||
    jsIncludes content "trigger"
  let hasSuccessCriteria := jsIncludes content "success" ||
    jsIncludes content "complete" || jsIncludes content "done"
  if hasTriggers && hasSuccessCriteria then
    (2, ⟨.pass, "Clear triggers and success criteria defined", 2⟩)
  else if hasTriggers || hasSuccessCriteria then
    (1, ⟨.warning, "Has some clarity for agents but could be improved", 1⟩)
  else (0, ⟨.fail, "Lacks clear triggers or success criteria for agents", 0⟩)

def scoreClarity (skill : ParsedSkill) : ScoreResult :=
  let content := jsToLower skill.skillMdContent
  let c1 := clarityCheckSpecific content
  let c2 := clarityCheckAmbiguity content
  let c3 := clarityCheckOrder skill.skillMdContent content
  let c4 := clarityCheckAgent content
  { score := min (c1.1 + c2.1 + c3.1 + c4.1) 10,
    findings := [c1.2, c2.2, c3.2, c4.2] }

/-! ### Safety scorer (scorer.ts `scoreSafety`) -/

def destructiveCommands : List String :=
  ["rm -rf", "rm -f", "del /f", "format", "fdisk", "dd if="]

def destructiveFound (content : String) : List String :=
  destructiveCommands.filter (fun cmd => jsIncludes content (jsToLower cmd))

def hasConfirmation (content : String) : Bool :=
  jsIncludes content "confirm" || jsIncludes content "ask" ||
    jsIncludes content "prompt"

/-- // Destructive commands (3 points) -/
def safetyCheckDestructive (content : String) : ℚ × Finding :=
  if (destructiveFound content).length = 0 then
    (3, ⟨.pass, "No dangerous destructive commands found", 3⟩)
  else if hasConfirmation content then
    (2, ⟨.warning, "Destructive commands found but with confirmation: " ++
      String.intercalate ", " (destructiveFound content), 2⟩)
  else
    (0, ⟨.fail, "Dangerous commands without confirmation: " ++
      String.intercalate ", " (destructiveFound content), 0⟩)

def secretPatterns : List String :=
  ["password", "secret", "token", "api_key", "private_key",
   "ssh_key", "credential", "auth", ".env"]

def exfilPatterns : List String := ["curl", "wget", "http", "upload", "send", "post"]

/-- // Secret exfiltration (3 points) -/
def safetyCheckSecrets (content : String) : ℚ × Finding :=
  let hasSecrets := secretPatterns.any (fun p => jsIncludes content p)
  let hasExfil := exfilPatterns.any (fun p => jsIncludes content p)
  if !hasSecrets || !hasExfil then
    (3, ⟨.pass, "No obvious secret exfiltration risks", 3⟩)
  else if jsIncludes content "sanitize" || jsIncludes content "redact" ||
      jsIncludes content "mask" then
    (2, ⟨.warning, "Potential secret handling with protection measures", 2⟩)
  else (1, ⟨.warning, "Potential secret exfiltration risk detected", 1⟩)

def loopPatterns : List String := ["while true", "for (;;)", "infinite", "forever"]

/-- // Unbounded loops (1 point) -/
def safetyCheckLoops (content : String) : ℚ × Finding :=
  let unboundedLoops := loopPatterns.filter (fun p => jsIncludes content p)
  if unboundedLoops.length = 0 then (1, ⟨.pass, "No unbounded loops detected", 1⟩)
  else if jsIncludes content "break" || jsIncludes content "exit" ||
      jsIncludes content "timeout" then
    (1, ⟨.warning, "Potential unbounded loops with break conditions", 1⟩)
  else
    (0, ⟨.fail, "Unbounded loops without exit conditions: " ++
      String.intercalate ", " unboundedLoops, 0⟩)

def networkTerms : List String :=
  ["curl", "wget", "fetch", "http", "https", "api", "endpoint", "request"]

def containmentTerms : List String :=
  ["allowlist", "whitelist", "restrict", "domain", "scope", "trusted",
   "untrusted", "sanitize", "validate response"]

/-- // Network containment (1 point) -/
def safetyCheckNetwork (content : String) : ℚ × Finding :=
  if networkTerms.any (fun t => jsIncludes content t) then
    if containmentTerms.any (fun t => jsIncludes content t) then
      (1, ⟨.pass, "Network usage with containment measures", 1⟩)
    else (0, ⟨.fail, "Network usage without containment measures", 0⟩)
  else (1, ⟨.pass, "No network usage detected (containment N/A)", 1⟩)

def privEscalation : List String := ["sudo", "su -", "chmod 777", "chown root"]

/-- // Permissions (2 points) -/
def safetyCheckPermissions (content : String) : ℚ × Finding :=
  let privFound := privEscalation.filter (fun cmd => jsIncludes content cmd)
  if privFound.length = 0 then
    (2, ⟨.pass, "No privilege escalation commands found", 2⟩)
  else if jsIncludes content "require" || jsIncludes content "need" ||
      jsIncludes content "admin" then
    (1, ⟨.warning, "Privilege escalation with justification: " ++
      String.intercalate ", " privFound, 1⟩)
  else
    (0, ⟨.fail, "Privilege escalation without justification: " ++
      String.intercalate ", " privFound, 0⟩)

def scoreSafety (skill : ParsedSkill) : ScoreResult :=
  let content := jsToLower skill.skillMdContent
  let c1 := safetyCheckDestructive content
  let c2 := safetyCheckSecrets content
  let c3 := safetyCheckLoops content
  let c4 := safetyCheckNetwork content
  let c5 := safetyCheckPermissions content
  { score := min (c1.1 + c2.1 + c3.1 + c4.1 + c5.1) 10,
    findings := [c1.2, c2.2, c3.2, c4.2, c5.2] }

/-- Sum of the points of the four non-destructive Safety sub-checks
(everything of `scoreSafety` except the destructive-command check). -/
def safetyRest (content : String) : ℚ :=
  (safetyCheckSecrets content).1 + (safetyCheckLoops content).1 +
    (safetyCheckNetwork content).1 + (safetyCheckPermissions content).1

/-! ### Dependencies scorer (scorer.ts `scoreDependencies`) -/

def toolKeywords : List String :=
  ["require", "depend", "need", "install", "tool", "api", "library"]

/-- // Lists tools (3 points) -/
def dependenciesCheckTools (content : String) : ℚ × Finding :=
  if toolKeywords.any (fun k => jsIncludes content k) then
    (3, ⟨.pass, "Tools and dependencies are documented", 3⟩)
  else (0, ⟨.fail, "No clear documentation of required tools or dependencies", 0⟩)

def checkPatterns : List String :=
  ["check", "verify", "validate", "test", "ensure", "command -v"]

/-- // Checks before running (2 points) -/
def dependenciesCheckChecks (content : String) : ℚ × Finding :=
  if checkPatterns.any (fun p => jsIncludes content p) then
    (2, ⟨.pass, "Includes validation or checking of dependencies", 2⟩)
  else (0, ⟨.warning, "Could benefit from dependency checking before execution", 0⟩)

def installPatterns : List String :=
  ["install", "setup", "brew", "apt", "npm install", "pip install"]

/-- // Install instructions (3 points) -/
def dependenciesCheckInstall (content : String) : ℚ × Finding :=
  if installPatterns.any (fun p => jsIncludes content p) then
    (3, ⟨.pass, "Installation instructions provided", 3⟩)
  else (0, ⟨.fail, "Missing installation instructions for dependencies", 0⟩)

def envPatterns : List String :=
  ["env", "environment", "variable", "$", "export", "set"]

/-- // Environment variables (2 points) -/
def dependenciesCheckEnv (content : String) : ℚ × Finding :=
  if envPatterns.any (fun p => jsIncludes content p) then
    (2, ⟨.pass, "Environment variables documented", 2⟩)
  else (0, ⟨.info, "No environment variables documented (may not be needed)", 0⟩)

def scoreDependencies (skill : ParsedSkill) : ScoreResult :=
  let content := jsToLower skill.skillMdContent
  let c1 := dependenciesCheckTools content
  let c2 := dependenciesCheckChecks content
  let c3 := dependenciesCheckInstall content
  let c4 := dependenciesCheckEnv content
  { score := min (c1.1 + c2.1 + c3.1 + c4.1) 10,
    findings := [c1.2, c2.2, c3.2, c4.2] }

/-! ### Error-handling scorer (scorer.ts `scoreErrorHandling`) -/

def errorKeywords : List String :=
  ["error", "fail", "exception", "problem", "issue", "troubleshoot"]

/-- // Failure instructions (3 points) -/
def errorHandlingCheckErrors (content : String) : ℚ × Finding :=
  if errorKeywords.any (fun k => jsIncludes content k) then
    (3, ⟨.pass, "Error handling and failure scenarios documented", 3⟩)
  else (0, ⟨.fail, "No error handling or failure scenarios documented", 0⟩)

def fallbackKeywords : List String :=
  ["fallback", "alternative", "backup", "retry", "recover", "plan b"]

/-- // Fallbacks (3 points) -/
def errorHandlingCheckFallbacks (content : String) : ℚ × Finding :=
  if fallbackKeywords.any (fun k => jsIncludes content k) then
    (3, ⟨.pass, "Fallback strategies documented", 3⟩)
  else (0, ⟨.warning, "No fallback strategies documented", 0⟩)

def validationKeywords : List String :=
  ["validate", "check", "verify", "status", "confirm"]

/-- // No silent failures (2 points) -/
def errorHandlingCheckValidation (content : String) : ℚ × Finding :=
  if validationKeywords.any (fun k => jsIncludes content k) then
    (2, ⟨.pass, "Validation and status checking included", 2⟩)
  else (0, ⟨.warning, "Could benefit from validation to prevent silent failures", 0⟩)

def edgeKeywords : List String :=
  ["edge", "boundary", "limit", "special case", "exception", "corner case"]

/-- // Edge cases (2 points) -/
def errorHandlingCheckEdge (content : String) : ℚ × Finding :=
  if edgeKeywords.any (fun k => jsIncludes content k) then
    (2, ⟨.pass, "Edge cases and boundary conditions documented", 2⟩)
  else (0, ⟨.info, "Edge cases not specifically documented", 0⟩)

def scoreErrorHandling (skill : ParsedSkill) : ScoreResult :=
  let content := jsToLower skill.skillMdContent
  let c1 := errorHandlingCheckErrors content
  let c2 := errorHandlingCheckFallbacks content
  let c3 := errorHandlingCheckValidation content
  let c4 := errorHandlingCheckEdge content
  { score := min (c1.1 + c2.1 + c3.1 + c4.1) 10,
    findings := [c1.2, c2.2, c3.2, c4.2] }

/-! ### Scope scorer (scorer.ts `scoreScope`) -/

def multipleVerbWords : List String := ["and", "or", "also", "plus", "additionally"]

/-- // Single responsibility (2 points) -/
def scopeCheckSingleResponsibility (skill : ParsedSkill) : ℚ × Finding :=
  let wordCount := (splitSpace skill.description).length
  let hasMultipleVerbs := hasWordCI multipleVerbWords skill.description
  if wordCount ≤ 50 && !hasMultipleVerbs then
    (2, ⟨.pass, "Clear single responsibility focus", 2⟩)
  else if wordCount ≤ 100 then
    (1, ⟨.warning, "Mostly focused but could be more specific", 1⟩)
  else (0, ⟨.fail, "Scope appears too broad or unfocused", 0⟩)

/-- // Accurate description (2 points) -/
def scopeCheckAccurate (skill : ParsedSkill) : ℚ × Finding :=
  let nameWords := splitWS (jsToLower skill.name)
  let descWords := splitWS (jsToLower skill.description)
  let overlap := (nameWords.filter (fun w => descWords.contains w)).length
  if overlap ≥ 1 || skill.description.length > 0 then
    (2, ⟨.pass, "Description aligns with skill name", 2⟩)
  else (0, ⟨.warning, "Description may not accurately reflect functionality", 0⟩)

def triggerWords : List String :=
  ["when", "if", "trigger", "activate", "invoke", "call", "execute"]

/-- // Specific triggers (2 points) -/
def scopeCheckTriggers (content : String) : ℚ × Finding :=
  if triggerWords.any (fun w => jsIncludes content w) then
    (2, ⟨.pass, "Clear trigger conditions specified", 2⟩)
  else (1, ⟨.warning, "Trigger conditions could be more specific", 1⟩)

/-- The apostrophe character (several negative-routing phrases contain it). -/
def apostrophe : Char := Char.ofNat 39

def negativePatterns : List String :=
  ["don" ++ String.singleton apostrophe ++ "t use",
   "do not use", "not for",
   "don" ++ String.singleton apostrophe ++ "t call",
   "instead use", "not when",
   "don" ++ String.singleton apostrophe ++ "t use when",
   "avoid using this"]

/-- // Negative examples / routing boundaries (2 points) -/
def scopeCheckNegative (content : String) : ℚ × Finding :=
  if negativePatterns.any (fun p => jsIncludes content p) then
    (2, ⟨.pass, "Has negative routing examples (what NOT to use this for)", 2⟩)
  else (0, ⟨.fail, "No negative routing examples found", 0⟩)

/-- // Routing-quality description (1 point) -/
def scopeCheckRouting (content : String) : ℚ × Finding :=
  let hasUseWhen := jsIncludes content "use when" || jsIncludes content "use this when"
  let hasToolNames := jsIncludes content "curl" || jsIncludes content "npm" ||
    jsIncludes content "pip" || jsIncludes content "brew" ||
    hasTickToken content.toList
  let hasIOSignals := jsIncludes content "input" || jsIncludes content "output" ||
    jsIncludes content "returns" || jsIncludes content "produces"
  if hasUseWhen || (hasToolNames && hasIOSignals) then
    (1, ⟨.pass, "Description has concrete routing signals", 1⟩)
  else (0, ⟨.fail, "Description lacks concrete routing signals", 0⟩)

def conflictIndicators : List String := ["override", "replace", "conflict", "interfere"]

/-- // No conflicts (2 points) — the source adds only 1 point here. -/
def scopeCheckConflicts (content : String) : ℚ × Finding :=
  if !(conflictIndicators.any (fun w => jsIncludes content w)) then
    (1, ⟨.pass, "No obvious conflict indicators", 1⟩)
  else (0, ⟨.warning, "Potential conflicts mentioned", 0⟩)

def scoreScope (skill : ParsedSkill) : ScoreResult :=
  let content := jsToLower skill.skillMdContent
  let c1 := scopeCheckSingleResponsibility skill
  let c2 := scopeCheckAccurate skill
  let c3 := scopeCheckTriggers content
  let c4 := scopeCheckNegative content
  let c5 := scopeCheckRouting content
  let c6 := scopeCheckConflicts content
  { score := min (c1.1 + c2.1 + c3.1 + c4.1 + c5.1 + c6.1) 10,
    findings := [c1.2, c2.2, c3.2, c4.2, c5.2, c6.2] }

/-! ### Documentation scorer (scorer.ts `scoreDocumentation`) -/

def exampleKeywords : List String := ["example", "usage", "```", "sample", "demo"]

/-- // Usage examples (3 points) -/
def documentationCheckExamples (content : String) : ℚ × Finding :=
  if exampleKeywords.any (fun k => jsIncludes content k) then
    (3, ⟨.pass, "Usage examples provided", 3⟩)
  else (0, ⟨.fail, "No usage examples found", 0⟩)

def ioKeywords : List String := ["input", "output", "parameter", "return", "result"]

/-- // Input/Output (2 points) -/
def documentationCheckInOut (content : String) : ℚ × Finding :=
  if ioKeywords.any (fun k => jsIncludes content k) then
    (2, ⟨.pass, "Input/output documented", 2⟩)
  else (0, ⟨.warning, "Input/output not clearly documented", 0⟩)

def limitationKeywords : List String :=
  ["limitation", "constraint", "caveat", "note", "warning", "caution"]

/-- // Edge case documentation (2 points) -/
def documentationCheckLimitations (content : String) : ℚ × Finding :=
  if limitationKeywords.any (fun k => jsIncludes content k) then
    (2, ⟨.pass, "Limitations and caveats documented", 2⟩)
  else (0, ⟨.warning, "Limitations not documented", 0⟩)

def troubleshootKeywords : List String :=
  ["troubleshoot", "debug", "faq", "common issue", "problem"]

/-- // Troubleshooting (1 point) -/
def documentationCheckTroubleshooting (content : String) : ℚ × Finding :=
  if troubleshootKeywords.any (fun k => jsIncludes content k) then
    (1, ⟨.pass, "Troubleshooting guidance provided", 1⟩)
  else (0, ⟨.info, "No troubleshooting section found", 0⟩)

def templateKeywords : List String :=
  ["template", "format", "example output", "sample output", "expected output"]

/-- Existence test for the structured-output regex
`/```[\s\S]*?(json|yaml|xml|\x7b[\s\S]*?\x7d|\[[\s\S]*?\])[\s\S]*?```/`:
after the first triple backtick, one of the group alternatives occurs and a
triple backtick follows it. -/
def hasStructuredOutput (origContent : String) : Bool :=
  match splitFirst ticks3 origContent.toList with
  | none => false
  | some t =>
    (match splitFirst "json".toList t with
     | some r => subOcc ticks3 r
     | none => false) ||
    (match splitFirst "yaml".toList t with
     | some r => subOcc ticks3 r
     | none => false) ||
    (match splitFirst "xml".toList t with
     | some r => subOcc ticks3 r
     | none => false) ||
    (match splitFirst ['\x7b'] t with
     | some r1 =>
       (match splitFirst ['\x7d'] r1 with
        | some r2 => subOcc ticks3 r2
        | none => false)
     | none => false) ||
    (match splitFirst ['['] t with
     | some r1 =>
       (match splitFirst [']'] r1 with
        | some r2 => subOcc ticks3 r2
        | none => false)
     | none => false)

/-- // Embedded templates / worked examples (2 points) -/
def documentationCheckTemplates (origContent content : String) : ℚ × Finding :=
  let codeBlockCount : ℚ := (countTripleTicks origContent.toList : ℚ) / 2
  let hasTemplateKeywords := templateKeywords.any (fun k => jsIncludes content k)
  let hasStructured := hasStructuredOutput origContent
  if codeBlockCount ≥ 2 && (hasTemplateKeywords || hasStructured) then
    (2, ⟨.pass, "Has embedded templates or worked examples with expected output", 2⟩)
  else if codeBlockCount ≥ 1 then
    (1, ⟨.warning, "Has code blocks but no clear template/output examples", 1⟩)
  else (0, ⟨.fail, "No embedded templates or worked examples", 0⟩)

def scoreDocumentation (skill : ParsedSkill) : ScoreResult :=
  let content := jsToLower skill.skillMdContent
  let c1 := documentationCheckExamples content
  let c2 := documentationCheckInOut content
  let c3 := documentationCheckLimitations content
  let c4 := documentationCheckTroubleshooting content
  let c5 := documentationCheckTemplates skill.skillMdContent content
  { score := min (c1.1 + c2.1 + c3.1 + c4.1 + c5.1) 10,
    findings := [c1.2, c2.2, c3.2, c4.2, c5.2] }

/-! ### Path/URL classifier (scorer.ts `findHardcodedPaths`) -/

/-- Character class `[a-zA-Z0-9/_.-]` of the slash-path alternative. -/
def pathChar1 (c : Char) : Bool :=
  c.isAlphanum || c == '/' || c == '_' || c == '.' || c == '-'

/-- Character class `[a-zA-Z0-9\\._-]` of the drive-letter alternative. -/
def pathChar2 (c : Char) : Bool :=
  c.isAlphanum || c == '\\' || c == '.' || c == '_' || c == '-'

/-- Global scan of
`/\/[a-zA-Z0-9][a-zA-Z0-9\/_.-]*|[A-Z]:\\[a-zA-Z0-9\\._-]*/g`:
leftmost matches, greedy runs, resume after each match, advance one
character on failure.  The state `some (tok, cls)` holds the current
match reversed together with its alternative (`true` = slash path using
`pathChar1`, `false` = drive-letter path using `pathChar2`); `none` means
no match is in progress. -/
def extractGo (st : Option (List Char × Bool)) : List Char → List (List Char)
  | [] =>
    match st with
    | none => []
    | some (tok, _) => [tok.reverse]
  | c :: rest =>
    match st with
    | some (tok, cls) =>
      if (if cls then pathChar1 c else pathChar2 c) then
        extractGo (some (c :: tok, cls)) rest
      else
        -- the greedy run ends right before `c`; the scan resumes at `c`
        tok.reverse ::
          (if c == '/' then
            match rest with
            | d :: rest2 =>
              if d.isAlphanum then extractGo (some ([d, c], true)) rest2
              else extractGo none (d :: rest2)
            | [] => []
          else if c.isUpper then
            match rest with
            | d :: e :: rest2 =>
              if d == ':' && e == '\\' then extractGo (some ([e, d, c], false)) rest2
              else extractGo none (d :: e :: rest2)
            | [d] => extractGo none [d]
            | [] => []
          else extractGo none rest)
    | none =>
      if c == '/' then
        match rest with
        | d :: rest2 =>
          if d.isAlphanum then extractGo (some ([d, c], true)) rest2
          else extractGo none (d :: rest2)
        | [] => []
      else if c.isUpper then
        match rest with
        | d :: e :: rest2 =>
          if d == ':' && e == '\\' then extractGo (some ([e, d, c], false)) rest2
          else extractGo none (d :: e :: rest2)
        | [d] => extractGo none [d]
        | [] => []
      else extractGo none rest

def extractPaths (l : List Char) : List (List Char) := extractGo none l

/-- `[\w.-]`, the host character class of the dynamically built URL regex. -/
def isHostChar (c : Char) : Bool := isWordChar c || c == '.' || c == '-'

/-- One or more host characters followed immediately by `path`. -/
def hostThenPath (path : List Char) : List Char → Bool
  | [] => false
  | c :: rest => isHostChar c && (path.isPrefixOf rest || hostThenPath path rest)

/-- The dynamically built regex `https?://[\w.-]+<escaped path>` matches at the
head of `s`. -/
def urlPatAt (path : List Char) (s : List Char) : Bool :=
  ("http://".toList.isPrefixOf s && hostThenPath path (s.drop 7)) ||
    ("https://".toList.isPrefixOf s && hostThenPath path (s.drop 8))

/-- `new RegExp("https?://[\\w.-]+" + escaped).test(content)`. -/
def urlPatTest (path : List Char) : List Char → Bool
  | [] => false
  | c :: rest => urlPatAt path (c :: rest) || urlPatTest path rest

/-- `[a-z0-9]`. -/
def isLowAlnum (c : Char) : Bool := ('a' ≤ c && c ≤ 'z') || ('0' ≤ c && c ≤ '9')

/-- `path.match(/\/[a-z0-9]+\/[a-z0-9]+$/) !== null`: the path ends in two
slash-separated nonempty all-lowercase-alphanumeric segments. -/
def twoSegTail (path : List Char) : Bool :=
  let rev := path.reverse
  match rev.takeWhile isLowAlnum, rev.dropWhile isLowAlnum with
  | _ :: _, '/' :: rest2 =>
    (match rest2.takeWhile isLowAlnum, rest2.dropWhile isLowAlnum with
     | _ :: _, '/' :: _ => true
     | _, _ => false)
  | _, _ => false

/-- `path.match(/^[A-Z]:\\/) !== null`. -/
def driveLetterStart : List Char → Bool
  | c :: d :: e :: _ => c.isUpper && d == ':' && e == '\\'
  | _ => false

def osRootStarts : List String :=
  ["/home/", "/Users/", "/usr/", "/opt/", "/etc/", "/var/",
   "/tmp/", "/bin/", "/sbin/"]

/-- The final classification step: the candidate looks like a real
filesystem path. -/
def looksFilesystem (path : List Char) : Bool :=
  osRootStarts.any (fun r => r.toList.isPrefixOf path) ||
    driveLetterStart path || subOcc "/.".toList path

/-- The skip cascade applied to one candidate (`continue` ⇒ `false`;
a candidate surviving every skip is kept iff it looks like a filesystem
path). -/
def keepPath (content path : List Char) : Bool :=
  if "//".toList.isPrefixOf path then false
  else if subOcc ("http:".toList ++ path) content ||
      subOcc ("https:".toList ++ path) content ||
      subOcc ("ftp:".toList ++ path) content then false
  else if (subOcc "http://".toList content || subOcc "https://".toList content) &&
      urlPatTest path content then false
  else if "/api/".toList.isPrefixOf path || "/v1/".toList.isPrefixOf path ||
      "/v2/".toList.isPrefixOf path ||
      (subOcc "/data/".toList path && subOcc "api".toList content) ||
      (twoSegTail path && subOcc ".com".toList content) ||
      path.length < 4 then false
  else looksFilesystem path

def findHardcodedPaths (content : String) : List String :=
  ((extractPaths content.toList).filter (keepPath content.toList)).map
    (fun l => String.mk l)

/-! ### Portability scorer (scorer.ts `scorePortability`) -/

def osSpecific : List String :=
  ["/home/", "/Users/", "C:\\", "cmd.exe", ".exe", "/usr/local"]

/-- // Cross-platform (3 points) -/
def portabilityCheckCrossPlatform (content : String) : ℚ × Finding :=
  if !(osSpecific.any (fun p => jsIncludes content p)) then
    (3, ⟨.pass, "No OS-specific paths or commands detected", 3⟩)
  else (1, ⟨.warning, "Contains OS-specific elements", 1⟩)

/-- // No hardcoded paths (2 points) - Fixed to exclude URL fragments -/
def portabilityCheckHardcoded (content : String) : ℚ × Finding :=
  let hardcodedPaths := findHardcodedPaths content
  if hardcodedPaths.length = 0 then
    (2, ⟨.pass, "No hardcoded absolute paths found", 2⟩)
  else
    (0, ⟨.fail, "Hardcoded paths found: " ++
      String.intercalate ", " (hardcodedPaths.take 3), 0⟩)

def platformKeywords : List String :=
  ["platform", "system", "os", "linux", "mac", "windows", "require"]

/-- // Notes limitations (3 points) -/
def portabilityCheckPlatformNotes (content : String) : ℚ × Finding :=
  if platformKeywords.any (fun k => jsIncludes (jsToLower content) k) then
    (3, ⟨.pass, "Platform requirements or limitations noted", 3⟩)
  else (0, ⟨.warning, "Platform compatibility not discussed", 0⟩)

/-- // Relative paths (2 points) -/
def portabilityCheckRelative (content : String) : ℚ × Finding :=
  let hasRelativePaths := jsIncludes content "./"
  if hasRelativePaths || (findHardcodedPaths content).length = 0 then
    (2, ⟨.pass, "Uses relative paths appropriately", 2⟩)
  else (0, ⟨.warning, "Could benefit from using relative paths", 0⟩)

def scorePortability (skill : ParsedSkill) : ScoreResult :=
  let content := skill.skillMdContent
  let c1 := portabilityCheckCrossPlatform content
  let c2 := portabilityCheckHardcoded content
  let c3 := portabilityCheckPlatformNotes content
  let c4 := portabilityCheckRelative content
  { score := min (c1.1 + c2.1 + c3.1 + c4.1) 10,
    findings := [c1.2, c2.2, c3.2, c4.2] }

/-! ### Aggregator (scorer.ts `scoreCategory` / `scoreSkill`) -/

/-- The `switch (category.id)` of `scoreCategory`: score 0 and no findings
for an unknown id (the `let score = 0; let findings = []` defaults). -/
def categoryResult (skill : ParsedSkill) (category : ScoringCategory) : ScoreResult :=
  if category.id = "structure" then scoreStructure skill
  else if category.id = "clarity" then scoreClarity skill
  else if category.id = "safety" then scoreSafety skill
  else if category.id = "dependencies" then scoreDependencies skill
  else if category.id = "errorHandling" then scoreErrorHandling skill
  else if category.id = "scope" then scoreScope skill
  else if category.id = "documentation" then scoreDocumentation skill
  else if category.id = "portability" then scorePortability skill
  else { score := 0, findings := [] }

def scoreCategory (skill : ParsedSkill) (category : ScoringCategory) : CategoryScore :=
  let r : ScoreResult := categoryResult skill category
  { category := category,
    score := r.score,
    maxScore := category.maxScore,
    percentage := r.score / category.maxScore * 100,
    findings := r.findings,
    weightedScore := r.score * category.weight }

/-- `scoreSkill` — `new Date()` becomes the `timestamp` argument. -/
def scoreSkill (skill : ParsedSkill) (timestamp : ℚ) : SkillScore :=
  let categoryScores := SCORING_CATEGORIES.map (fun category => scoreCategory skill category)
  let totalWeightedScore := categoryScores.foldl (fun sum cat => sum + cat.weightedScore) 0
  let percentage := totalWeightedScore / 10 * 100
  { skill := skill,
    categoryScores := categoryScores,
    totalScore := totalWeightedScore,
    maxTotalScore := 10,
    percentage := percentage,
    letterGrade := getLetterGrade percentage,
    timestamp := timestamp }

/-! ### Concrete inputs used by witnesses and counterexamples -/

def emptyStruct : FileStructure :=
  { hasSkillMd := false, hasReadme := false, hasPackageJson := false,
    hasScripts := false, totalFiles := 0, directories := [], fileTypes := [] }

/-- A skill whose descriptor file exists and consists of the given text,
with every other field empty. -/
def mkSkill (content : String) : ParsedSkill :=
  { skillPath := "", skillMdExists := true, skillMdContent := content,
    name := "", description := "", files := [], struct := emptyStruct }

/-- The missing/absent document: no descriptor file, empty text, empty name
and description, zero files (the "empty skill" of the repository's own edge
case test). -/
def missingSkill : ParsedSkill :=
  { skillPath := "/fake/path", skillMdExists := false, skillMdContent := "",
    name := "", description := "", files := [], struct := emptyStruct }

/-- End-to-end scenario B document: contains `rm -rf /* `, no confirmation
language, no fallback language. -/
def dangerSkill : ParsedSkill := mkSkill "rm -rf /* "

def rmSkill : ParsedSkill := mkSkill "rm -rf"

def rmConfirmSkill : ParsedSkill := mkSkill "rm -rf confirm"

def cleanSkill : ParsedSkill := mkSkill ""

/-- Document whose absolute-path-shaped fragments are all URL-embedded. -/
def urlDoc : String :=
  "Use https://cdn.example.com/CSS/styles.css and /api/v2/fetch for assets."

def urlSkill : ParsedSkill := mkSkill urlDoc

/-- Document containing `/home/user/docs` — and also a `.com` mention. -/
def dotcomDoc : String := "Download from example.com and copy /home/user/docs"

/-- Document containing `/home/user/docs` and no `.com` mention. -/
def homeDoc : String := "Copy data from /home/user/docs today"

def homeSkill : ParsedSkill := mkSkill homeDoc

/-- Document containing `C:\Users\name\file`. -/
def winDoc : String := "Open C:\\Users\\name\\file now"

def winSkill : ParsedSkill := mkSkill winDoc

/-- A single-category table whose weight sums to exactly 1. -/
def unitCat : ScoringCategory :=
  { id := "w", name := "W", description := "", weight := 1, maxScore := 10 }

/-! ## Helper lemmas: each sub-check pushes a finding carrying exactly the
points it adds, and its points lie within the sub-check's budget. -/

lemma structureCheckExists_pts (s : ParsedSkill) :
    (structureCheckExists s).2.points = (structureCheckExists s).1 ∧
    0 ≤ (structureCheckExists s).1 ∧ (structureCheckExists s).1 ≤ 3 := by
  simp only [structureCheckExists]; split_ifs <;> norm_num

lemma structureCheckName_pts (s : ParsedSkill) :
    (structureCheckName s).2.points = (structureCheckName s).1 ∧
    0 ≤ (structureCheckName s).1 ∧ (structureCheckName s).1 ≤ 2 := by
  simp only [structureCheckName]; split_ifs <;> norm_num

lemma structureCheckDescription_pts (s : ParsedSkill) :
    (structureCheckDescription s).2.points = (structureCheckDescription s).1 ∧
    0 ≤ (structureCheckDescription s).1 ∧ (structureCheckDescription s).1 ≤ 2 := by
  simp only [structureCheckDescription]; split_ifs <;> norm_num

lemma structureCheckOrganization_pts (s : ParsedSkill) :
    (structureCheckOrganization s).2.points = (structureCheckOrganization s).1 ∧
    0 ≤ (structureCheckOrganization s).1 ∧ (structureCheckOrganization s).1 ≤ 1 := by
  simp only [structureCheckOrganization]
  split_ifs <;>
    refine ⟨by trivial, ?_, ?_⟩ <;> norm_num [jsRound, min_def]

lemma structureCheckOutputSpec_pts (s : ParsedSkill) :
    (structureCheckOutputSpec s).2.points = (structureCheckOutputSpec s).1 ∧
    0 ≤ (structureCheckOutputSpec s).1 ∧ (structureCheckOutputSpec s).1 ≤ 1 := by
  simp only [structureCheckOutputSpec]; split_ifs <;> norm_num

lemma structureCheckConventions_pts (s : ParsedSkill) :
    (structureCheckConventions s).2.points = (structureCheckConventions s).1 ∧
    0 ≤ (structureCheckConventions s).1 ∧ (structureCheckConventions s).1 ≤ 1 := by
  simp only [structureCheckConventions]
  split_ifs <;>
    refine ⟨by trivial, ?_, ?_⟩ <;> norm_num

lemma clarityCheckSpecific_pts (c : String) :
    (clarityCheckSpecific c).2.points = (clarityCheckSpecific c).1 ∧
    0 ≤ (clarityCheckSpecific c).1 ∧ (clarityCheckSpecific c).1 ≤ 3 := by
  simp only [clarityCheckSpecific]; split_ifs <;> norm_num

lemma clarityCheckAmbiguity_pts (c : String) :
    (clarityCheckAmbiguity c).2.points = (clarityCheckAmbiguity c).1 ∧
    0 ≤ (clarityCheckAmbiguity c).1 ∧ (clarityCheckAmbiguity c).1 ≤ 3 := by
  simp only [clarityCheckAmbiguity]; split_ifs <;> norm_num

lemma clarityCheckOrder_pts (o c : String) :
    (clarityCheckOrder o c).2.points = (clarityCheckOrder o c).1 ∧
    0 ≤ (clarityCheckOrder o c).1 ∧ (clarityCheckOrder o c).1 ≤ 2 := by
  simp only [clarityCheckOrder]; split_ifs <;> norm_num

lemma clarityCheckAgent_pts (c : String) :
    (clarityCheckAgent c).2.points = (clarityCheckAgent c).1 ∧
    0 ≤ (clarityCheckAgent c).1 ∧ (clarityCheckAgent c).1 ≤ 2 := by
  simp only [clarityCheckAgent]; split_ifs <;> norm_num

lemma safetyCheckDestructive_pts (c : String) :
    (safetyCheckDestructive c).2.points = (safetyCheckDestructive c).1 ∧
    0 ≤ (safetyCheckDestructive c).1 ∧ (safetyCheckDestructive c).1 ≤ 3 := by
  simp only [safetyCheckDestructive]; split_ifs <;> norm_num

lemma safetyCheckSecrets_pts (c : String) :
    (safetyCheckSecrets c).2.points = (safetyCheckSecrets c).1 ∧
    0 ≤ (safetyCheckSecrets c).1 ∧ (safetyCheckSecrets c).1 ≤ 3 := by
  simp only [safetyCheckSecrets]; split_ifs <;> norm_num

lemma safetyCheckLoops_pts (c : String) :
    (safetyCheckLoops c).2.points = (safetyCheckLoops c).1 ∧
    0 ≤ (safetyCheckLoops c).1 ∧ (safetyCheckLoops c).1 ≤ 1 := by
  simp only [safetyCheckLoops]; split_ifs <;> norm_num

lemma safetyCheckNetwork_pts (c : String) :
    (safetyCheckNetwork c).2.points = (safetyCheckNetwork c).1 ∧
    0 ≤ (safetyCheckNetwork c).1 ∧ (safetyCheckNetwork c).1 ≤ 1 := by
  simp only [safetyCheckNetwork]; split_ifs <;> norm_num

lemma safetyCheckPermissions_pts (c : String) :
    (safetyCheckPermissions c).2.points = (safetyCheckPermissions c).1 ∧
    0 ≤ (safetyCheckPermissions c).1 ∧ (safetyCheckPermissions c).1 ≤ 2 := by
  simp only [safetyCheckPermissions]; split_ifs <;> norm_num

lemma dependenciesCheckTools_pts (c : String) :
    (dependenciesCheckTools c).2.points = (dependenciesCheckTools c).1 ∧
    0 ≤ (dependenciesCheckTools c).1 ∧ (dependenciesCheckTools c).1 ≤ 3 := by
  simp only [dependenciesCheckTools]; split_ifs <;> norm_num

lemma dependenciesCheckChecks_pts (c : String) :
    (dependenciesCheckChecks c).2.points = (dependenciesCheckChecks c).1 ∧
    0 ≤ (dependenciesCheckChecks c).1 ∧ (dependenciesCheckChecks c).1 ≤ 2 := by
  simp only [dependenciesCheckChecks]; split_ifs <;> norm_num

lemma dependenciesCheckInstall_pts (c : String) :
    (dependenciesCheckInstall c).2.points = (dependenciesCheckInstall c).1 ∧
    0 ≤ (dependenciesCheckInstall c).1 ∧ (dependenciesCheckInstall c).1 ≤ 3 := by
  simp only [dependenciesCheckInstall]; split_ifs <;> norm_num

lemma dependenciesCheckEnv_pts (c : String) :
    (dependenciesCheckEnv c).2.points = (dependenciesCheckEnv c).1 ∧
    0 ≤ (dependenciesCheckEnv c).1 ∧ (dependenciesCheckEnv c).1 ≤ 2 := by
  simp only [dependenciesCheckEnv]; split_ifs <;> norm_num

lemma errorHandlingCheckErrors_pts (c : String) :
    (errorHandlingCheckErrors c).2.points = (errorHandlingCheckErrors c).1 ∧
    0 ≤ (errorHandlingCheckErrors c).1 ∧ (errorHandlingCheckErrors c).1 ≤ 3 := by
  simp only [errorHandlingCheckErrors]; split_ifs <;> norm_num

lemma errorHandlingCheckFallbacks_pts (c : String) :
    (errorHandlingCheckFallbacks c).2.points = (errorHandlingCheckFallbacks c).1 ∧
    0 ≤ (errorHandlingCheckFallbacks c).1 ∧ (errorHandlingCheckFallbacks c).1 ≤ 3 := by
  simp only [errorHandlingCheckFallbacks]; split_ifs <;> norm_num

lemma errorHandlingCheckValidation_pts (c : String) :
    (errorHandlingCheckValidation c).2.points = (errorHandlingCheckValidation c).1 ∧
    0 ≤ (errorHandlingCheckValidation c).1 ∧ (errorHandlingCheckValidation c).1 ≤ 2 := by
  simp only [errorHandlingCheckValidation]; split_ifs <;> norm_num

lemma errorHandlingCheckEdge_pts (c : String) :
    (errorHandlingCheckEdge c).2.points = (errorHandlingCheckEdge c).1 ∧
    0 ≤ (errorHandlingCheckEdge c).1 ∧ (errorHandlingCheckEdge c).1 ≤ 2 := by
  simp only [errorHandlingCheckEdge]; split_ifs <;> norm_num

lemma scopeCheckSingleResponsibility_pts (s : ParsedSkill) :
    (scopeCheckSingleResponsibility s).2.points = (scopeCheckSingleResponsibility s).1 ∧
    0 ≤ (scopeCheckSingleResponsibility s).1 ∧ (scopeCheckSingleResponsibility s).1 ≤ 2 := by
  simp only [scopeCheckSingleResponsibility]; split_ifs <;> norm_num

lemma scopeCheckAccurate_pts (s : ParsedSkill) :
    (scopeCheckAccurate s).2.points = (scopeCheckAccurate s).1 ∧
    0 ≤ (scopeCheckAccurate s).1 ∧ (scopeCheckAccurate s).1 ≤ 2 := by
  simp only [scopeCheckAccurate]; split_ifs <;> norm_num

lemma scopeCheckTriggers_pts (c : String) :
    (scopeCheckTriggers c).2.points = (scopeCheckTriggers c).1 ∧
    0 ≤ (scopeCheckTriggers c).1 ∧ (scopeCheckTriggers c).1 ≤ 2 := by
  simp only [scopeCheckTriggers]; split_ifs <;> norm_num

lemma scopeCheckNegative_pts (c : String) :
    (scopeCheckNegative c).2.points = (scopeCheckNegative c).1 ∧
    0 ≤ (scopeCheckNegative c).1 ∧ (scopeCheckNegative c).1 ≤ 2 := by
  simp only [scopeCheckNegative]; split_ifs <;> norm_num

lemma scopeCheckRouting_pts (c : String) :
    (scopeCheckRouting c).2.points = (scopeCheckRouting c).1 ∧
    0 ≤ (scopeCheckRouting c).1 ∧ (scopeCheckRouting c).1 ≤ 1 := by
  simp only [scopeCheckRouting]; split_ifs <;> norm_num

lemma scopeCheckConflicts_pts (c : String) :
    (scopeCheckConflicts c).2.points = (scopeCheckConflicts c).1 ∧
    0 ≤ (scopeCheckConflicts c).1 ∧ (scopeCheckConflicts c).1 ≤ 1 := by
  simp only [scopeCheckConflicts]; split_ifs <;> norm_num

lemma documentationCheckExamples_pts (c : String) :
    (documentationCheckExamples c).2.points = (documentationCheckExamples c).1 ∧
    0 ≤ (documentationCheckExamples c).1 ∧ (documentationCheckExamples c).1 ≤ 3 := by
  simp only [documentationCheckExamples]; split_ifs <;> norm_num

lemma documentationCheckInOut_pts (c : String) :
    (documentationCheckInOut c).2.points = (documentationCheckInOut c).1 ∧
    0 ≤ (documentationCheckInOut c).1 ∧ (documentationCheckInOut c).1 ≤ 2 := by
  simp only [documentationCheckInOut]; split_ifs <;> norm_num

lemma documentationCheckLimitations_pts (c : String) :
    (documentationCheckLimitations c).2.points = (documentationCheckLimitations c).1 ∧
    0 ≤ (documentationCheckLimitations c).1 ∧ (documentationCheckLimitations c).1 ≤ 2 := by
  simp only [documentationCheckLimitations]; split_ifs <;> norm_num

lemma documentationCheckTroubleshooting_pts (c : String) :
    (documentationCheckTroubleshooting c).2.points = (documentationCheckTroubleshooting c).1 ∧
    0 ≤ (documentationCheckTroubleshooting c).1 ∧ (documentationCheckTroubleshooting c).1 ≤ 1 := by
  simp only [documentationCheckTroubleshooting]; split_ifs <;> norm_num

lemma documentationCheckTemplates_pts (o c : String) :
    (documentationCheckTemplates o c).2.points = (documentationCheckTemplates o c).1 ∧
    0 ≤ (documentationCheckTemplates o c).1 ∧ (documentationCheckTemplates o c).1 ≤ 2 := by
  simp only [documentationCheckTemplates]; split_ifs <;> norm_num

lemma portabilityCheckCrossPlatform_pts (c : String) :
    (portabilityCheckCrossPlatform c).2.points = (portabilityCheckCrossPlatform c).1 ∧
    0 ≤ (portabilityCheckCrossPlatform c).1 ∧ (portabilityCheckCrossPlatform c).1 ≤ 3 := by
  simp only [portabilityCheckCrossPlatform]; split_ifs <;> norm_num

lemma portabilityCheckHardcoded_pts (c : String) :
    (portabilityCheckHardcoded c).2.points = (portabilityCheckHardcoded c).1 ∧
    0 ≤ (portabilityCheckHardcoded c).1 ∧ (portabilityCheckHardcoded c).1 ≤ 2 := by
  simp only [portabilityCheckHardcoded]; split_ifs <;> norm_num

lemma portabilityCheckPlatformNotes_pts (c : String) :
    (portabilityCheckPlatformNotes c).2.points = (portabilityCheckPlatformNotes c).1 ∧
    0 ≤ (portabilityCheckPlatformNotes c).1 ∧ (portabilityCheckPlatformNotes c).1 ≤ 3 := by
  simp only [portabilityCheckPlatformNotes]; split_ifs <;> norm_num

lemma portabilityCheckRelative_pts (c : String) :
    (portabilityCheckRelative c).2.points = (portabilityCheckRelative c).1 ∧
    0 ≤ (portabilityCheckRelative c).1 ∧ (portabilityCheckRelative c).1 ≤ 2 := by
  simp only [portabilityCheckRelative]; split_ifs <;> norm_num

/-! ## Scorer-level invariants: every scorer returns a score equal to the
sum of its findings' points, non-negative, with the sum never exceeding 10
(so the `Math.min(score, 10)` clamp is the identity). -/

lemma scoreStructure_spec (s : ParsedSkill) :
    (scoreStructure s).score = sumPoints (scoreStructure s).findings ∧
    0 ≤ (scoreStructure s).score ∧
    sumPoints (scoreStructure s).findings ≤ 10 := by
  obtain ⟨e1, l1, u1⟩ := structureCheckExists_pts s
  obtain ⟨e2, l2, u2⟩ := structureCheckName_pts s
  obtain ⟨e3, l3, u3⟩ := structureCheckDescription_pts s
  obtain ⟨e4, l4, u4⟩ := structureCheckOrganization_pts s
  obtain ⟨e5, l5, u5⟩ := structureCheckOutputSpec_pts s
  obtain ⟨e6, l6, u6⟩ := structureCheckConventions_pts s
  have hsum : sumPoints (scoreStructure s).findings =
      (structureCheckExists s).1 + (structureCheckName s).1 +
        (structureCheckDescription s).1 + (structureCheckOrganization s).1 +
        (structureCheckOutputSpec s).1 + (structureCheckConventions s).1 := by
    simp only [scoreStructure, sumPoints, List.map_cons, List.map_nil, List.sum_cons,
      List.sum_nil, e1, e2, e3, e4, e5, e6]
    ring
  have hscore : (scoreStructure s).score =
      min ((structureCheckExists s).1 + (structureCheckName s).1 +
        (structureCheckDescription s).1 + (structureCheckOrganization s).1 +
        (structureCheckOutputSpec s).1 + (structureCheckConventions s).1) 10 := rfl
  rw [hscore, hsum]
  exact ⟨min_eq_left (by linarith), le_min (by linarith) (by norm_num), by linarith⟩

lemma scoreClarity_spec (s : ParsedSkill) :
    (scoreClarity s).score = sumPoints (scoreClarity s).findings ∧
    0 ≤ (scoreClarity s).score ∧
    sumPoints (scoreClarity s).findings ≤ 10 := by
  obtain ⟨e1, l1, u1⟩ := clarityCheckSpecific_pts (jsToLower s.skillMdContent)
  obtain ⟨e2, l2, u2⟩ := clarityCheckAmbiguity_pts (jsToLower s.skillMdContent)
  obtain ⟨e3, l3, u3⟩ := clarityCheckOrder_pts s.skillMdContent (jsToLower s.skillMdContent)
  obtain ⟨e4, l4, u4⟩ := clarityCheckAgent_pts (jsToLower s.skillMdContent)
  have hsum : sumPoints (scoreClarity s).findings =
      (clarityCheckSpecific (jsToLower s.skillMdContent)).1 +
        (clarityCheckAmbiguity (jsToLower s.skillMdContent)).1 +
        (clarityCheckOrder s.skillMdContent (jsToLower s.skillMdContent)).1 +
        (clarityCheckAgent (jsToLower s.skillMdContent)).1 := by
    simp only [scoreClarity, sumPoints, List.map_cons, List.map_nil, List.sum_cons,
      List.sum_nil, e1, e2, e3, e4]
    ring
  have hscore : (scoreClarity s).score =
      min ((clarityCheckSpecific (jsToLower s.skillMdContent)).1 +
        (clarityCheckAmbiguity (jsToLower s.skillMdContent)).1 +
        (clarityCheckOrder s.skillMdContent (jsToLower s.skillMdContent)).1 +
        (clarityCheckAgent (jsToLower s.skillMdContent)).1) 10 := rfl
  rw [hscore, hsum]
  exact ⟨min_eq_left (by linarith), le_min (by linarith) (by norm_num), by linarith⟩

lemma scoreSafety_spec (s : ParsedSkill) :
    (scoreSafety s).score = sumPoints (scoreSafety s).findings ∧
    0 ≤ (scoreSafety s).score ∧
    sumPoints (scoreSafety s).findings ≤ 10 := by
  obtain ⟨e1, l1, u1⟩ := safetyCheckDestructive_pts (jsToLower s.skillMdContent)
  obtain ⟨e2, l2, u2⟩ := safetyCheckSecrets_pts (jsToLower s.skillMdContent)
  obtain ⟨e3, l3, u3⟩ := safetyCheckLoops_pts (jsToLower s.skillMdContent)
  obtain ⟨e4, l4, u4⟩ := safetyCheckNetwork_pts (jsToLower s.skillMdContent)
  obtain ⟨e5, l5, u5⟩ := safetyCheckPermissions_pts (jsToLower s.skillMdContent)
  have hsum : sumPoints (scoreSafety s).findings =
      (safetyCheckDestructive (jsToLower s.skillMdContent)).1 +
        (safetyCheckSecrets (jsToLower s.skillMdContent)).1 +
        (safetyCheckLoops (jsToLower s.skillMdContent)).1 +
        (safetyCheckNetwork (jsToLower s.skillMdContent)).1 +
        (safetyCheckPermissions (jsToLower s.skillMdContent)).1 := by
    simp only [scoreSafety, sumPoints, List.map_cons, List.map_nil, List.sum_cons,
      List.sum_nil, e1, e2, e3, e4, e5]
    ring
  have hscore : (scoreSafety s).score =
      min ((safetyCheckDestructive (jsToLower s.skillMdContent)).1 +
        (safetyCheckSecrets (jsToLower s.skillMdContent)).1 +
        (safetyCheckLoops (jsToLower s.skillMdContent)).1 +
        (safetyCheckNetwork (jsToLower s.skillMdContent)).1 +
        (safetyCheckPermissions (jsToLower s.skillMdContent)).1) 10 := rfl
  rw [hscore, hsum]
  exact ⟨min_eq_left (by linarith), le_min (by linarith) (by norm_num), by linarith⟩

lemma scoreDependencies_spec (s : ParsedSkill) :
    (scoreDependencies s).score = sumPoints (scoreDependencies s).findings ∧
    0 ≤ (scoreDependencies s).score ∧
    sumPoints (scoreDependencies s).findings ≤ 10 := by
  obtain ⟨e1, l1, u1⟩ := dependenciesCheckTools_pts (jsToLower s.skillMdContent)
  obtain ⟨e2, l2, u2⟩ := dependenciesCheckChecks_pts (jsToLower s.skillMdContent)
  obtain ⟨e3, l3, u3⟩ := dependenciesCheckInstall_pts (jsToLower s.skillMdContent)
  obtain ⟨e4, l4, u4⟩ := dependenciesCheckEnv_pts (jsToLower s.skillMdContent)
  have hsum : sumPoints (scoreDependencies s).findings =
      (dependenciesCheckTools (jsToLower s.skillMdContent)).1 +
        (dependenciesCheckChecks (jsToLower s.skillMdContent)).1 +
        (dependenciesCheckInstall (jsToLower s.skillMdContent)).1 +
        (dependenciesCheckEnv (jsToLower s.skillMdContent)).1 := by
    simp only [scoreDependencies, sumPoints, List.map_cons, List.map_nil, List.sum_cons,
      List.sum_nil, e1, e2, e3, e4]
    ring
  have hscore : (scoreDependencies s).score =
      min ((dependenciesCheckTools (jsToLower s.skillMdContent)).1 +
        (dependenciesCheckChecks (jsToLower s.skillMdContent)).1 +
        (dependenciesCheckInstall (jsToLower s.skillMdContent)).1 +
        (dependenciesCheckEnv (jsToLower s.skillMdContent)).1) 10 := rfl
  rw [hscore, hsum]
  exact ⟨min_eq_left (by linarith), le_min (by linarith) (by norm_num), by linarith⟩

lemma scoreErrorHandling_spec (s : ParsedSkill) :
    (scoreErrorHandling s).score = sumPoints (scoreErrorHandling s).findings ∧
    0 ≤ (scoreErrorHandling s).score ∧
    sumPoints (scoreErrorHandling s).findings ≤ 10 := by
  obtain ⟨e1, l1, u1⟩ := errorHandlingCheckErrors_pts (jsToLower s.skillMdContent)
  obtain ⟨e2, l2, u2⟩ := errorHandlingCheckFallbacks_pts (jsToLower s.skillMdContent)
  obtain ⟨e3, l3, u3⟩ := errorHandlingCheckValidation_pts (jsToLower s.skillMdContent)
  obtain ⟨e4, l4, u4⟩ := errorHandlingCheckEdge_pts (jsToLower s.skillMdContent)
  have hsum : sumPoints (scoreErrorHandling s).findings =
      (errorHandlingCheckErrors (jsToLower s.skillMdContent)).1 +
        (errorHandlingCheckFallbacks (jsToLower s.skillMdContent)).1 +
        (errorHandlingCheckValidation (jsToLower s.skillMdContent)).1 +
        (errorHandlingCheckEdge (jsToLower s.skillMdContent)).1 := by
    simp only [scoreErrorHandling, sumPoints, List.map_cons, List.map_nil, List.sum_cons,
      List.sum_nil, e1, e2, e3, e4]
    ring
  have hscore : (scoreErrorHandling s).score =
      min ((errorHandlingCheckErrors (jsToLower s.skillMdContent)).1 +
        (errorHandlingCheckFallbacks (jsToLower s.skillMdContent)).1 +
        (errorHandlingCheckValidation (jsToLower s.skillMdContent)).1 +
        (errorHandlingCheckEdge (jsToLower s.skillMdContent)).1) 10 := rfl
  rw [hscore, hsum]
  exact ⟨min_eq_left (by linarith), le_min (by linarith) (by norm_num), by linarith⟩

lemma scoreScope_spec (s : ParsedSkill) :
    (scoreScope s).score = sumPoints (scoreScope s).findings ∧
    0 ≤ (scoreScope s).score ∧
    sumPoints (scoreScope s).findings ≤ 10 := by
  obtain ⟨e1, l1, u1⟩ := scopeCheckSingleResponsibility_pts s
  obtain ⟨e2, l2, u2⟩ := scopeCheckAccurate_pts s
  obtain ⟨e3, l3, u3⟩ := scopeCheckTriggers_pts (jsToLower s.skillMdContent)
  obtain ⟨e4, l4, u4⟩ := scopeCheckNegative_pts (jsToLower s.skillMdContent)
  obtain ⟨e5, l5, u5⟩ := scopeCheckRouting_pts (jsToLower s.skillMdContent)
  obtain ⟨e6, l6, u6⟩ := scopeCheckConflicts_pts (jsToLower s.skillMdContent)
  have hsum : sumPoints (scoreScope s).findings =
      (scopeCheckSingleResponsibility s).1 + (scopeCheckAccurate s).1 +
        (scopeCheckTriggers (jsToLower s.skillMdContent)).1 +
        (scopeCheckNegative (jsToLower s.skillMdContent)).1 +
        (scopeCheckRouting (jsToLower s.skillMdContent)).1 +
        (scopeCheckConflicts (jsToLower s.skillMdContent)).1 := by
    simp only [scoreScope, sumPoints, List.map_cons, List.map_nil, List.sum_cons,
      List.sum_nil, e1, e2, e3, e4, e5, e6]
    ring
  have hscore : (scoreScope s).score =
      min ((scopeCheckSingleResponsibility s).1 + (scopeCheckAccurate s).1 +
        (scopeCheckTriggers (jsToLower s.skillMdContent)).1 +
        (scopeCheckNegative (jsToLower s.skillMdContent)).1 +
        (scopeCheckRouting (jsToLower s.skillMdContent)).1 +
        (scopeCheckConflicts (jsToLower s.skillMdContent)).1) 10 := rfl
  rw [hscore, hsum]
  exact ⟨min_eq_left (by linarith), le_min (by linarith) (by norm_num), by linarith⟩

lemma scoreDocumentation_spec (s : ParsedSkill) :
    (scoreDocumentation s).score = sumPoints (scoreDocumentation s).findings ∧
    0 ≤ (scoreDocumentation s).score ∧
    sumPoints (scoreDocumentation s).findings ≤ 10 := by
  obtain ⟨e1, l1, u1⟩ := documentationCheckExamples_pts (jsToLower s.skillMdContent)
  obtain ⟨e2, l2, u2⟩ := documentationCheckInOut_pts (jsToLower s.skillMdContent)
  obtain ⟨e3, l3, u3⟩ := documentationCheckLimitations_pts (jsToLower s.skillMdContent)
  obtain ⟨e4, l4, u4⟩ := documentationCheckTroubleshooting_pts (jsToLower s.skillMdContent)
  obtain ⟨e5, l5, u5⟩ := documentationCheckTemplates_pts s.skillMdContent (jsToLower s.skillMdContent)
  have hsum : sumPoints (scoreDocumentation s).findings =
      (documentationCheckExamples (jsToLower s.skillMdContent)).1 +
        (documentationCheckInOut (jsToLower s.skillMdContent)).1 +
        (documentationCheckLimitations (jsToLower s.skillMdContent)).1 +
        (documentationCheckTroubleshooting (jsToLower s.skillMdContent)).1 +
        (documentationCheckTemplates s.skillMdContent (jsToLower s.skillMdContent)).1 := by
    simp only [scoreDocumentation, sumPoints, List.map_cons, List.map_nil, List.sum_cons,
      List.sum_nil, e1, e2, e3, e4, e5]
    ring
  have hscore : (scoreDocumentation s).score =
      min ((documentationCheckExamples (jsToLower s.skillMdContent)).1 +
        (documentationCheckInOut (jsToLower s.skillMdContent)).1 +
        (documentationCheckLimitations (jsToLower s.skillMdContent)).1 +
        (documentationCheckTroubleshooting (jsToLower s.skillMdContent)).1 +
        (documentationCheckTemplates s.skillMdContent (jsToLower s.skillMdContent)).1) 10 := rfl
  rw [hscore, hsum]
  exact ⟨min_eq_left (by linarith), le_min (by linarith) (by norm_num), by linarith⟩

lemma scorePortability_spec (s : ParsedSkill) :
    (scorePortability s).score = sumPoints (scorePortability s).findings ∧
    0 ≤ (scorePortability s).score ∧
    sumPoints (scorePortability s).findings ≤ 10 := by
  obtain ⟨e1, l1, u1⟩ := portabilityCheckCrossPlatform_pts s.skillMdContent
  obtain ⟨e2, l2, u2⟩ := portabilityCheckHardcoded_pts s.skillMdContent
  obtain ⟨e3, l3, u3⟩ := portabilityCheckPlatformNotes_pts s.skillMdContent
  obtain ⟨e4, l4, u4⟩ := portabilityCheckRelative_pts s.skillMdContent
  have hsum : sumPoints (scorePortability s).findings =
      (portabilityCheckCrossPlatform s.skillMdContent).1 +
        (portabilityCheckHardcoded s.skillMdContent).1 +
        (portabilityCheckPlatformNotes s.skillMdContent).1 +
        (portabilityCheckRelative s.skillMdContent).1 := by
    simp only [scorePortability, sumPoints, List.map_cons, List.map_nil, List.sum_cons,
      List.sum_nil, e1, e2, e3, e4]
    ring
  have hscore : (scorePortability s).score =
      min ((portabilityCheckCrossPlatform s.skillMdContent).1 +
        (portabilityCheckHardcoded s.skillMdContent).1 +
        (portabilityCheckPlatformNotes s.skillMdContent).1 +
        (portabilityCheckRelative s.skillMdContent).1) 10 := rfl
  rw [hscore, hsum]
  exact ⟨min_eq_left (by linarith), le_min (by linarith) (by norm_num), by linarith⟩

/-- The switch over category ids preserves the scorer invariants (an unknown
id yields score 0 with no findings). -/
lemma categoryResult_spec (s : ParsedSkill) (cat : ScoringCategory) :
    (categoryResult s cat).score = sumPoints (categoryResult s cat).findings ∧
    0 ≤ (categoryResult s cat).score ∧
    sumPoints (categoryResult s cat).findings ≤ 10 := by
  unfold categoryResult
  split_ifs <;>
    first
      | exact scoreStructure_spec s
      | exact scoreClarity_spec s
      | exact scoreSafety_spec s
      | exact scoreDependencies_spec s
      | exact scoreErrorHandling_spec s
      | exact scoreScope_spec s
      | exact scoreDocumentation_spec s
      | exact scorePortability_spec s
      | exact ⟨by simp [sumPoints], le_refl 0, by simp [sumPoints]⟩

/-! ## Claim theorems -/

/-- C1: two invocations of `scoreSkill` on the same `ParsedSkill` value
return `SkillScore` records identical in every field (categoryScores with
their findings, totalScore, maxTotalScore, percentage, letterGrade) except
the timestamp, and the timestamp value never influences any scoring
field. -/
theorem scoreSkill_deterministic (s : ParsedSkill) (t1 t2 : ℚ) :
    (scoreSkill s t1).categoryScores = (scoreSkill s t2).categoryScores ∧
    (scoreSkill s t1).totalScore = (scoreSkill s t2).totalScore ∧
    (scoreSkill s t1).maxTotalScore = (scoreSkill s t2).maxTotalScore ∧
    (scoreSkill s t1).percentage = (scoreSkill s t2).percentage ∧
    (scoreSkill s t1).letterGrade = (scoreSkill s t2).letterGrade ∧
    (scoreSkill s t1).skill = (scoreSkill s t2).skill ∧
    scoreSkill s t1 = { scoreSkill s t2 with timestamp := t1 } :=
  ⟨rfl, rfl, rfl, rfl, rfl, rfl, rfl⟩

/-- C2: every one of the 8 returned `CategoryScore`s has score in `[0, 10]`
and `percentage = score / maxScore * 100`; the `SkillScore`'s `totalScore`
equals the sum over the categories of `score * weight`, lies in `[0, 10]`,
and `percentage = totalScore / 10 * 100` lies in `[0, 100]`. -/
theorem scoreSkill_bounds (s : ParsedSkill) (t : ℚ) :
    (∀ cs ∈ (scoreSkill s t).categoryScores,
        0 ≤ cs.score ∧ cs.score ≤ 10 ∧
          cs.percentage = cs.score / cs.maxScore * 100) ∧
    (scoreSkill s t).categoryScores.length = 8 ∧
    (scoreSkill s t).totalScore =
      ((scoreSkill s t).categoryScores.map (fun cs => cs.score * cs.category.weight)).sum ∧
    0 ≤ (scoreSkill s t).totalScore ∧ (scoreSkill s t).totalScore ≤ 10 ∧
    (scoreSkill s t).percentage = (scoreSkill s t).totalScore / 10 * 100 ∧
    0 ≤ (scoreSkill s t).percentage ∧ (scoreSkill s t).percentage ≤ 100 := by
  have hmap : (scoreSkill s t).categoryScores =
      SCORING_CATEGORIES.map (fun category => scoreCategory s category) := rfl
  obtain ⟨a1, b1, c1⟩ := scoreStructure_spec s
  obtain ⟨a2, b2, c2⟩ := scoreClarity_spec s
  obtain ⟨a3, b3, c3⟩ := scoreSafety_spec s
  obtain ⟨a4, b4, c4⟩ := scoreDependencies_spec s
  obtain ⟨a5, b5, c5⟩ := scoreErrorHandling_spec s
  obtain ⟨a6, b6, c6⟩ := scoreScope_spec s
  obtain ⟨a7, b7, c7⟩ := scoreDocumentation_spec s
  obtain ⟨a8, b8, c8⟩ := scorePortability_spec s
  have u1 := le_of_eq_of_le a1 c1
  have u2 := le_of_eq_of_le a2 c2
  have u3 := le_of_eq_of_le a3 c3
  have u4 := le_of_eq_of_le a4 c4
  have u5 := le_of_eq_of_le a5 c5
  have u6 := le_of_eq_of_le a6 c6
  have u7 := le_of_eq_of_le a7 c7
  have u8 := le_of_eq_of_le a8 c8
  have htot : (scoreSkill s t).totalScore =
      0 + (scoreStructure s).score * 0.15 + (scoreClarity s).score * 0.20 +
        (scoreSafety s).score * 0.20 + (scoreDependencies s).score * 0.10 +
        (scoreErrorHandling s).score * 0.10 + (scoreScope s).score * 0.10 +
        (scoreDocumentation s).score * 0.10 + (scorePortability s).score * 0.05 := rfl
  have hmapsum : ((scoreSkill s t).categoryScores.map
        (fun cs => cs.score * cs.category.weight)).sum =
      (scoreStructure s).score * 0.15 + ((scoreClarity s).score * 0.20 +
        ((scoreSafety s).score * 0.20 + ((scoreDependencies s).score * 0.10 +
        ((scoreErrorHandling s).score * 0.10 + ((scoreScope s).score * 0.10 +
        ((scoreDocumentation s).score * 0.10 +
          ((scorePortability s).score * 0.05 + 0))))))) := rfl
  have hpct : (scoreSkill s t).percentage = (scoreSkill s t).totalScore / 10 * 100 := rfl
  refine ⟨?_, rfl, ?_, ?_, ?_, hpct, ?_, ?_⟩
  · intro cs hcs
    rw [hmap] at hcs
    obtain ⟨cat, hcat, rfl⟩ := List.mem_map.1 hcs
    obtain ⟨h1, h2, h3⟩ := categoryResult_spec s cat
    exact ⟨h2, le_of_eq_of_le h1 h3, rfl⟩
  · rw [htot, hmapsum]; ring
  · rw [htot]; linarith
  · rw [htot]; linarith
  · rw [hpct, htot]; linarith
  · rw [hpct, htot]; linarith

/-- Witness for C2 at a concrete input: the Safety category score of the
scenario-B document satisfies the stated bounds. -/
theorem scoreSkill_bounds_witness :
    0 ≤ (scoreCategory dangerSkill catSafety).score ∧
    (scoreCategory dangerSkill catSafety).score ≤ 10 ∧
    (scoreCategory dangerSkill catSafety).percentage =
      (scoreCategory dangerSkill catSafety).score /
        (scoreCategory dangerSkill catSafety).maxScore * 100 :=
  (scoreSkill_bounds dangerSkill 0).1 (scoreCategory dangerSkill catSafety)
    (List.mem_map_of_mem _ (List.Mem.tail _ (List.Mem.tail _ (List.Mem.head _))))

/-- C10: for every input and each category, the returned `CategoryScore`'s
score equals the sum of the points of its findings, that sum never exceeds
10, and hence the defensive `Math.min(score, 10)` clamp never changes the
returned value. -/
theorem scoreCategory_findings_sum (s : ParsedSkill) (t : ℚ) :
    ∀ cs ∈ (scoreSkill s t).categoryScores,
      cs.score = sumPoints cs.findings ∧
      sumPoints cs.findings ≤ 10 ∧
      cs.score = min (sumPoints cs.findings) 10 := by
  intro cs hcs
  have hcs' : cs ∈ SCORING_CATEGORIES.map (fun category => scoreCategory s category) := hcs
  obtain ⟨cat, hcat, rfl⟩ := List.mem_map.1 hcs'
  obtain ⟨h1, h2, h3⟩ := categoryResult_spec s cat
  refine ⟨h1, h3, ?_⟩
  show (categoryResult s cat).score = min (sumPoints (categoryResult s cat).findings) 10
  rw [min_eq_left h3]
  exact h1

/-- Witness for C10 at a concrete input: the Structure category of the
scenario-B document. -/
theorem scoreCategory_findings_sum_witness :
    (scoreCategory dangerSkill catStructure).score =
      sumPoints (scoreCategory dangerSkill catStructure).findings ∧
    sumPoints (scoreCategory dangerSkill catStructure).findings ≤ 10 ∧
    (scoreCategory dangerSkill catStructure).score =
      min (sumPoints (scoreCategory dangerSkill catStructure).findings) 10 :=
  scoreCategory_findings_sum dangerSkill 0 (scoreCategory dangerSkill catStructure)
    (List.mem_map_of_mem _ (List.Mem.head _))

/-- C3: the 8 rubric weights are 0.15, 0.20, 0.20, 0.10, 0.10, 0.10, 0.10,
0.05 and sum to 1.0 (hence within the 1e-3 tolerance); the load-time check
errors if and only if the weight sum deviates from 1.0 by more than 1e-3,
and the loaded table passes, so a misconfigured table would prevent any
scoring from proceeding. -/
theorem rubric_weight_invariant :
    SCORING_CATEGORIES.map (fun c => c.weight) =
      [0.15, 0.20, 0.20, 0.10, 0.10, 0.10, 0.10, 0.05] ∧
    SCORING_CATEGORIES.foldl (fun sum cat => sum + cat.weight) 0 = 1 ∧
    |SCORING_CATEGORIES.foldl (fun sum cat => sum + cat.weight) 0 - 1| ≤ 0.001 ∧
    (∀ cats : List ScoringCategory,
        (validateCategories cats = Except.ok cats ↔
          |cats.foldl (fun sum cat => sum + cat.weight) 0 - 1.0| ≤ 0.001) ∧
        ((∃ e, validateCategories cats = Except.error e) ↔
          0.001 < |cats.foldl (fun sum cat => sum + cat.weight) 0 - 1.0|)) ∧
    loadedCategories = Except.ok SCORING_CATEGORIES := by
  have hw : SCORING_CATEGORIES.foldl (fun sum cat => sum + cat.weight) 0 =
      0 + 0.15 + 0.20 + 0.20 + 0.10 + 0.10 + 0.10 + 0.10 + 0.05 := rfl
  have hw1 : SCORING_CATEGORIES.foldl (fun sum cat => sum + cat.weight) 0 = 1 := by
    rw [hw]; norm_num
  have hiff : ∀ cats : List ScoringCategory,
      (validateCategories cats = Except.ok cats ↔
        |cats.foldl (fun sum cat => sum + cat.weight) 0 - 1.0| ≤ 0.001) ∧
      ((∃ e, validateCategories cats = Except.error e) ↔
        0.001 < |cats.foldl (fun sum cat => sum + cat.weight) 0 - 1.0|) := by
    intro cats
    unfold validateCategories
    dsimp only
    split_ifs with h
    · refine ⟨⟨fun hok => hok.elim, fun hle => absurd h (not_lt.2 hle)⟩,
        ⟨fun _ => h, fun _ => ⟨_, rfl⟩⟩⟩
    · refine ⟨⟨fun _ => le_of_not_lt h, fun _ => rfl⟩,
        ⟨fun he => ?_, fun hlt => absurd hlt h⟩⟩
      obtain ⟨e, he⟩ := he
      exact he.elim
  refine ⟨rfl, hw1, by rw [hw1]; norm_num, hiff, ?_⟩
  unfold loadedCategories
  exact (hiff SCORING_CATEGORIES).1.2 (by rw [hw1]; norm_num)

/-- Witness for C3: the iff applied at a concrete well-formed single-entry
table. -/
theorem rubric_weight_invariant_witness :
    validateCategories [unitCat] = Except.ok [unitCat] :=
  (rubric_weight_invariant.2.2.2.1 [unitCat]).1.2
    (by show |(0 : ℚ) + 1 - 1.0| ≤ 0.001; norm_num)

lemma gradeBand_Ap (p : ℚ) : 97 ≤ p → getLetterGrade p = "A+" := by
  intro h; unfold getLetterGrade
  rw [if_pos (by linarith)]

lemma gradeBand_A (p : ℚ) : 93 ≤ p ∧ p < 97 → getLetterGrade p = "A" := by
  rintro ⟨h1, h2⟩; unfold getLetterGrade
  rw [if_neg (not_le.2 (by linarith)),
    if_pos (by linarith)]

lemma gradeBand_Am (p : ℚ) : 90 ≤ p ∧ p < 93 → getLetterGrade p = "A-" := by
  rintro ⟨h1, h2⟩; unfold getLetterGrade
  rw [if_neg (not_le.2 (by linarith)),
    if_neg (not_le.2 (by linarith)),
    if_pos (by linarith)]

lemma gradeBand_Bp (p : ℚ) : 87 ≤ p ∧ p < 90 → getLetterGrade p = "B+" := by
  rintro ⟨h1, h2⟩; unfold getLetterGrade
  rw [if_neg (not_le.2 (by linarith)),
    if_neg (not_le.2 (by linarith)),
    if_neg (not_le.2 (by linarith)),
    if_pos (by linarith)]

lemma gradeBand_B (p : ℚ) : 83 ≤ p ∧ p < 87 → getLetterGrade p = "B" := by
  rintro ⟨h1, h2⟩; unfold getLetterGrade
  rw [if_neg (not_le.2 (by linarith)),
    if_neg (not_le.2 (by linarith)),
    if_neg (not_le.2 (by linarith)),
    if_neg (not_le.2 (by linarith)),
    if_pos (by linarith)]

lemma gradeBand_Bm (p : ℚ) : 80 ≤ p ∧ p < 83 → getLetterGrade p = "B-" := by
  rintro ⟨h1, h2⟩; unfold getLetterGrade
  rw [if_neg (not_le.2 (by linarith)),
    if_neg (not_le.2 (by linarith)),
    if_neg (not_le.2 (by linarith)),
    if_neg (not_le.2 (by linarith)),
    if_neg (not_le.2 (by linarith)),
    if_pos (by linarith)]

lemma gradeBand_Cp (p : ℚ) : 77 ≤ p ∧ p < 80 → getLetterGrade p = "C+" := by
  rintro ⟨h1, h2⟩; unfold getLetterGrade
  rw [if_neg (not_le.2 (by linarith)),
    if_neg (not_le.2 (by linarith)),
    if_neg (not_le.2 (by linarith)),
    if_neg (not_le.2 (by linarith)),
    if_neg (not_le.2 (by linarith)),
    if_neg (not_le.2 (by linarith)),
    if_pos (by linarith)]

lemma gradeBand_C (p : ℚ) : 73 ≤ p ∧ p < 77 → getLetterGrade p = "C" := by
  rintro ⟨h1, h2⟩; unfold getLetterGrade
  rw [if_neg (not_le.2 (by linarith)),
    if_neg (not_le.2 (by linarith)),
    if_neg (not_le.2 (by linarith)),
    if_neg (not_le.2 (by linarith)),
    if_neg (not_le.2 (by linarith)),
    if_neg (not_le.2 (by linarith)),
    if_neg (not_le.2 (by linarith)),
    if_pos (by linarith)]

lemma gradeBand_Cm (p : ℚ) : 70 ≤ p ∧ p < 73 → getLetterGrade p = "C-" := by
  rintro ⟨h1, h2⟩; unfold getLetterGrade
  rw [if_neg (not_le.2 (by linarith)),
    if_neg (not_le.2 (by linarith)),
    if_neg (not_le.2 (by linarith)),
    if_neg (not_le.2 (by linarith)),
    if_neg (not_le.2 (by linarith)),
    if_neg (not_le.2 (by linarith)),
    if_neg (not_le.2 (by linarith)),
    if_neg (not_le.2 (by linarith)),
    if_pos (by linarith)]

lemma gradeBand_Dp (p : ℚ) : 67 ≤ p ∧ p < 70 → getLetterGrade p = "D+" := by
  rintro ⟨h1, h2⟩; unfold getLetterGrade
  rw [if_neg (not_le.2 (by linarith)),
    if_neg (not_le.2 (by linarith)),
    if_neg (not_le.2 (by linarith)),
    if_neg (not_le.2 (by linarith)),
    if_neg (not_le.2 (by linarith)),
    if_neg (not_le.2 (by linarith)),
    if_neg (not_le.2 (by linarith)),
    if_neg (not_le.2 (by linarith)),
    if_neg (not_le.2 (by linarith)),
    if_pos (by linarith)]

lemma gradeBand_D (p : ℚ) : 65 ≤ p ∧ p < 67 → getLetterGrade p = "D" := by
  rintro ⟨h1, h2⟩; unfold getLetterGrade
  rw [if_neg (not_le.2 (by linarith)),
    if_neg (not_le.2 (by linarith)),
    if_neg (not_le.2 (by linarith)),
    if_neg (not_le.2 (by linarith)),
    if_neg (not_le.2 (by linarith)),
    if_neg (not_le.2 (by linarith)),
    if_neg (not_le.2 (by linarith)),
    if_neg (not_le.2 (by linarith)),
    if_neg (not_le.2 (by linarith)),
    if_neg (not_le.2 (by linarith)),
    if_pos (by linarith)]

lemma gradeBand_Dm (p : ℚ) : 60 ≤ p ∧ p < 65 → getLetterGrade p = "D-" := by
  rintro ⟨h1, h2⟩; unfold getLetterGrade
  rw [if_neg (not_le.2 (by linarith)),
    if_neg (not_le.2 (by linarith)),
    if_neg (not_le.2 (by linarith)),
    if_neg (not_le.2 (by linarith)),
    if_neg (not_le.2 (by linarith)),
    if_neg (not_le.2 (by linarith)),
    if_neg (not_le.2 (by linarith)),
    if_neg (not_le.2 (by linarith)),
    if_neg (not_le.2 (by linarith)),
    if_neg (not_le.2 (by linarith)),
    if_neg (not_le.2 (by linarith)),
    if_pos (by linarith)]

lemma gradeBand_F (p : ℚ) : p < 60 → getLetterGrade p = "F" := by
  intro h; unfold getLetterGrade
  rw [if_neg (not_le.2 (by linarith)),
    if_neg (not_le.2 (by linarith)),
    if_neg (not_le.2 (by linarith)),
    if_neg (not_le.2 (by linarith)),
    if_neg (not_le.2 (by linarith)),
    if_neg (not_le.2 (by linarith)),
    if_neg (not_le.2 (by linarith)),
    if_neg (not_le.2 (by linarith)),
    if_neg (not_le.2 (by linarith)),
    if_neg (not_le.2 (by linarith)),
    if_neg (not_le.2 (by linarith)),
    if_neg (not_le.2 (by linarith))]

/-- If `97 ≤ q` then the assigned grade ranks at least 12. -/
lemma gradeRankGE_Ap (q : ℚ) (h : (97 : ℚ) ≤ q) :
    12 ≤ gradeRank (getLetterGrade q) := by
  rw [gradeBand_Ap q h]; decide

/-- If `93 ≤ q` then the assigned grade ranks at least 11. -/
lemma gradeRankGE_A (q : ℚ) (h : (93 : ℚ) ≤ q) :
    11 ≤ gradeRank (getLetterGrade q) := by
  by_cases h97 : (97 : ℚ) ≤ q
  · rw [gradeBand_Ap q h97]; decide
  rw [gradeBand_A q ⟨h, not_le.1 h97⟩]; decide

/-- If `90 ≤ q` then the assigned grade ranks at least 10. -/
lemma gradeRankGE_Am (q : ℚ) (h : (90 : ℚ) ≤ q) :
    10 ≤ gradeRank (getLetterGrade q) := by
  by_cases h97 : (97 : ℚ) ≤ q
  · rw [gradeBand_Ap q h97]; decide
  by_cases h93 : (93 : ℚ) ≤ q
  · rw [gradeBand_A q ⟨h93, not_le.1 h97⟩]; decide
  rw [gradeBand_Am q ⟨h, not_le.1 h93⟩]; decide

/-- If `87 ≤ q` then the assigned grade ranks at least 9. -/
lemma gradeRankGE_Bp (q : ℚ) (h : (87 : ℚ) ≤ q) :
    9 ≤ gradeRank (getLetterGrade q) := by
  by_cases h97 : (97 : ℚ) ≤ q
  · rw [gradeBand_Ap q h97]; decide
  by_cases h93 : (93 : ℚ) ≤ q
  · rw [gradeBand_A q ⟨h93, not_le.1 h97⟩]; decide
  by_cases h90 : (90 : ℚ) ≤ q
  · rw [gradeBand_Am q ⟨h90, not_le.1 h93⟩]; decide
  rw [gradeBand_Bp q ⟨h, not_le.1 h90⟩]; decide

/-- If `83 ≤ q` then the assigned grade ranks at least 8. -/
lemma gradeRankGE_B (q : ℚ) (h : (83 : ℚ) ≤ q) :
    8 ≤ gradeRank (getLetterGrade q) := by
  by_cases h97 : (97 : ℚ) ≤ q
  · rw [gradeBand_Ap q h97]; decide
  by_cases h93 : (93 : ℚ) ≤ q
  · rw [gradeBand_A q ⟨h93, not_le.1 h97⟩]; decide
  by_cases h90 : (90 : ℚ) ≤ q
  · rw [gradeBand_Am q ⟨h90, not_le.1 h93⟩]; decide
  by_cases h87 : (87 : ℚ) ≤ q
  · rw [gradeBand_Bp q ⟨h87, not_le.1 h90⟩]; decide
  rw [gradeBand_B q ⟨h, not_le.1 h87⟩]; decide

/-- If `80 ≤ q` then the assigned grade ranks at least 7. -/
lemma gradeRankGE_Bm (q : ℚ) (h : (80 : ℚ) ≤ q) :
    7 ≤ gradeRank (getLetterGrade q) := by
  by_cases h97 : (97 : ℚ) ≤ q
  · rw [gradeBand_Ap q h97]; decide
  by_cases h93 : (93 : ℚ) ≤ q
  · rw [gradeBand_A q ⟨h93, not_le.1 h97⟩]; decide
  by_cases h90 : (90 : ℚ) ≤ q
  · rw [gradeBand_Am q ⟨h90, not_le.1 h93⟩]; decide
  by_cases h87 : (87 : ℚ) ≤ q
  · rw [gradeBand_Bp q ⟨h87, not_le.1 h90⟩]; decide
  by_cases h83 : (83 : ℚ) ≤ q
  · rw [gradeBand_B q ⟨h83, not_le.1 h87⟩]; decide
  rw [gradeBand_Bm q ⟨h, not_le.1 h83⟩]; decide

/-- If `77 ≤ q` then the assigned grade ranks at least 6. -/
lemma gradeRankGE_Cp (q : ℚ) (h : (77 : ℚ) ≤ q) :
    6 ≤ gradeRank (getLetterGrade q) := by
  by_cases h97 : (97 : ℚ) ≤ q
  · rw [gradeBand_Ap q h97]; decide
  by_cases h93 : (93 : ℚ) ≤ q
  · rw [gradeBand_A q ⟨h93, not_le.1 h97⟩]; decide
  by_cases h90 : (90 : ℚ) ≤ q
  · rw [gradeBand_Am q ⟨h90, not_le.1 h93⟩]; decide
  by_cases h87 : (87 : ℚ) ≤ q
  · rw [gradeBand_Bp q ⟨h87, not_le.1 h90⟩]; decide
  by_cases h83 : (83 : ℚ) ≤ q
  · rw [gradeBand_B q ⟨h83, not_le.1 h87⟩]; decide
  by_cases h80 : (80 : ℚ) ≤ q
  · rw [gradeBand_Bm q ⟨h80, not_le.1 h83⟩]; decide
  rw [gradeBand_Cp q ⟨h, not_le.1 h80⟩]; decide

/-- If `73 ≤ q` then the assigned grade ranks at least 5. -/
lemma gradeRankGE_C (q : ℚ) (h : (73 : ℚ) ≤ q) :
    5 ≤ gradeRank (getLetterGrade q) := by
  by_cases h97 : (97 : ℚ) ≤ q
  · rw [gradeBand_Ap q h97]; decide
  by_cases h93 : (93 : ℚ) ≤ q
  · rw [gradeBand_A q ⟨h93, not_le.1 h97⟩]; decide
  by_cases h90 : (90 : ℚ) ≤ q
  · rw [gradeBand_Am q ⟨h90, not_le.1 h93⟩]; decide
  by_cases h87 : (87 : ℚ) ≤ q
  · rw [gradeBand_Bp q ⟨h87, not_le.1 h90⟩]; decide
  by_cases h83 : (83 : ℚ) ≤ q
  · rw [gradeBand_B q ⟨h83, not_le.1 h87⟩]; decide
  by_cases h80 : (80 : ℚ) ≤ q
  · rw [gradeBand_Bm q ⟨h80, not_le.1 h83⟩]; decide
  by_cases h77 : (77 : ℚ) ≤ q
  · rw [gradeBand_Cp q ⟨h77, not_le.1 h80⟩]; decide
  rw [gradeBand_C q ⟨h, not_le.1 h77⟩]; decide

/-- If `70 ≤ q` then the assigned grade ranks at least 4. -/
lemma gradeRankGE_Cm (q : ℚ) (h : (70 : ℚ) ≤ q) :
    4 ≤ gradeRank (getLetterGrade q) := by
  by_cases h97 : (97 : ℚ) ≤ q
  · rw [gradeBand_Ap q h97]; decide
  by_cases h93 : (93 : ℚ) ≤ q
  · rw [gradeBand_A q ⟨h93, not_le.1 h97⟩]; decide
  by_cases h90 : (90 : ℚ) ≤ q
  · rw [gradeBand_Am q ⟨h90, not_le.1 h93⟩]; decide
  by_cases h87 : (87 : ℚ) ≤ q
  · rw [gradeBand_Bp q ⟨h87, not_le.1 h90⟩]; decide
  by_cases h83 : (83 : ℚ) ≤ q
  · rw [gradeBand_B q ⟨h83, not_le.1 h87⟩]; decide
  by_cases h80 : (80 : ℚ) ≤ q
  · rw [gradeBand_Bm q ⟨h80, not_le.1 h83⟩]; decide
  by_cases h77 : (77 : ℚ) ≤ q
  · rw [gradeBand_Cp q ⟨h77, not_le.1 h80⟩]; decide
  by_cases h73 : (73 : ℚ) ≤ q
  · rw [gradeBand_C q ⟨h73, not_le.1 h77⟩]; decide
  rw [gradeBand_Cm q ⟨h, not_le.1 h73⟩]; decide

/-- If `67 ≤ q` then the assigned grade ranks at least 3. -/
lemma gradeRankGE_Dp (q : ℚ) (h : (67 : ℚ) ≤ q) :
    3 ≤ gradeRank (getLetterGrade q) := by
  by_cases h97 : (97 : ℚ) ≤ q
  · rw [gradeBand_Ap q h97]; decide
  by_cases h93 : (93 : ℚ) ≤ q
  · rw [gradeBand_A q ⟨h93, not_le.1 h97⟩]; decide
  by_cases h90 : (90 : ℚ) ≤ q
  · rw [gradeBand_Am q ⟨h90, not_le.1 h93⟩]; decide
  by_cases h87 : (87 : ℚ) ≤ q
  · rw [gradeBand_Bp q ⟨h87, not_le.1 h90⟩]; decide
  by_cases h83 : (83 : ℚ) ≤ q
  · rw [gradeBand_B q ⟨h83, not_le.1 h87⟩]; decide
  by_cases h80 : (80 : ℚ) ≤ q
  · rw [gradeBand_Bm q ⟨h80, not_le.1 h83⟩]; decide
  by_cases h77 : (77 : ℚ) ≤ q
  · rw [gradeBand_Cp q ⟨h77, not_le.1 h80⟩]; decide
  by_cases h73 : (73 : ℚ) ≤ q
  · rw [gradeBand_C q ⟨h73, not_le.1 h77⟩]; decide
  by_cases h70 : (70 : ℚ) ≤ q
  · rw [gradeBand_Cm q ⟨h70, not_le.1 h73⟩]; decide
  rw [gradeBand_Dp q ⟨h, not_le.1 h70⟩]; decide

/-- If `65 ≤ q` then the assigned grade ranks at least 2. -/
lemma gradeRankGE_D (q : ℚ) (h : (65 : ℚ) ≤ q) :
    2 ≤ gradeRank (getLetterGrade q) := by
  by_cases h97 : (97 : ℚ) ≤ q
  · rw [gradeBand_Ap q h97]; decide
  by_cases h93 : (93 : ℚ) ≤ q
  · rw [gradeBand_A q ⟨h93, not_le.1 h97⟩]; decide
  by_cases h90 : (90 : ℚ) ≤ q
  · rw [gradeBand_Am q ⟨h90, not_le.1 h93⟩]; decide
  by_cases h87 : (87 : ℚ) ≤ q
  · rw [gradeBand_Bp q ⟨h87, not_le.1 h90⟩]; decide
  by_cases h83 : (83 : ℚ) ≤ q
  · rw [gradeBand_B q ⟨h83, not_le.1 h87⟩]; decide
  by_cases h80 : (80 : ℚ) ≤ q
  · rw [gradeBand_Bm q ⟨h80, not_le.1 h83⟩]; decide
  by_cases h77 : (77 : ℚ) ≤ q
  · rw [gradeBand_Cp q ⟨h77, not_le.1 h80⟩]; decide
  by_cases h73 : (73 : ℚ) ≤ q
  · rw [gradeBand_C q ⟨h73, not_le.1 h77⟩]; decide
  by_cases h70 : (70 : ℚ) ≤ q
  · rw [gradeBand_Cm q ⟨h70, not_le.1 h73⟩]; decide
  by_cases h67 : (67 : ℚ) ≤ q
  · rw [gradeBand_Dp q ⟨h67, not_le.1 h70⟩]; decide
  rw [gradeBand_D q ⟨h, not_le.1 h67⟩]; decide

/-- If `60 ≤ q` then the assigned grade ranks at least 1. -/
lemma gradeRankGE_Dm (q : ℚ) (h : (60 : ℚ) ≤ q) :
    1 ≤ gradeRank (getLetterGrade q) := by
  by_cases h97 : (97 : ℚ) ≤ q
  · rw [gradeBand_Ap q h97]; decide
  by_cases h93 : (93 : ℚ) ≤ q
  · rw [gradeBand_A q ⟨h93, not_le.1 h97⟩]; decide
  by_cases h90 : (90 : ℚ) ≤ q
  · rw [gradeBand_Am q ⟨h90, not_le.1 h93⟩]; decide
  by_cases h87 : (87 : ℚ) ≤ q
  · rw [gradeBand_Bp q ⟨h87, not_le.1 h90⟩]; decide
  by_cases h83 : (83 : ℚ) ≤ q
  · rw [gradeBand_B q ⟨h83, not_le.1 h87⟩]; decide
  by_cases h80 : (80 : ℚ) ≤ q
  · rw [gradeBand_Bm q ⟨h80, not_le.1 h83⟩]; decide
  by_cases h77 : (77 : ℚ) ≤ q
  · rw [gradeBand_Cp q ⟨h77, not_le.1 h80⟩]; decide
  by_cases h73 : (73 : ℚ) ≤ q
  · rw [gradeBand_C q ⟨h73, not_le.1 h77⟩]; decide
  by_cases h70 : (70 : ℚ) ≤ q
  · rw [gradeBand_Cm q ⟨h70, not_le.1 h73⟩]; decide
  by_cases h67 : (67 : ℚ) ≤ q
  · rw [gradeBand_Dp q ⟨h67, not_le.1 h70⟩]; decide
  by_cases h65 : (65 : ℚ) ≤ q
  · rw [gradeBand_D q ⟨h65, not_le.1 h67⟩]; decide
  rw [gradeBand_Dm q ⟨h, not_le.1 h65⟩]; decide

/-- Grade monotonicity, stated through `gradeRank`. -/
lemma getLetterGrade_mono (p q : ℚ) (hpq : p ≤ q) :
    gradeRank (getLetterGrade p) ≤ gradeRank (getLetterGrade q) := by
  by_cases h97 : (97 : ℚ) ≤ p
  · rw [gradeBand_Ap p h97]
    exact le_trans (by decide) (gradeRankGE_Ap q (by linarith))
  by_cases h93 : (93 : ℚ) ≤ p
  · rw [gradeBand_A p ⟨h93, not_le.1 h97⟩]
    exact le_trans (by decide) (gradeRankGE_A q (by linarith))
  by_cases h90 : (90 : ℚ) ≤ p
  · rw [gradeBand_Am p ⟨h90, not_le.1 h93⟩]
    exact le_trans (by decide) (gradeRankGE_Am q (by linarith))
  by_cases h87 : (87 : ℚ) ≤ p
  · rw [gradeBand_Bp p ⟨h87, not_le.1 h90⟩]
    exact le_trans (by decide) (gradeRankGE_Bp q (by linarith))
  by_cases h83 : (83 : ℚ) ≤ p
  · rw [gradeBand_B p ⟨h83, not_le.1 h87⟩]
    exact le_trans (by decide) (gradeRankGE_B q (by linarith))
  by_cases h80 : (80 : ℚ) ≤ p
  · rw [gradeBand_Bm p ⟨h80, not_le.1 h83⟩]
    exact le_trans (by decide) (gradeRankGE_Bm q (by linarith))
  by_cases h77 : (77 : ℚ) ≤ p
  · rw [gradeBand_Cp p ⟨h77, not_le.1 h80⟩]
    exact le_trans (by decide) (gradeRankGE_Cp q (by linarith))
  by_cases h73 : (73 : ℚ) ≤ p
  · rw [gradeBand_C p ⟨h73, not_le.1 h77⟩]
    exact le_trans (by decide) (gradeRankGE_C q (by linarith))
  by_cases h70 : (70 : ℚ) ≤ p
  · rw [gradeBand_Cm p ⟨h70, not_le.1 h73⟩]
    exact le_trans (by decide) (gradeRankGE_Cm q (by linarith))
  by_cases h67 : (67 : ℚ) ≤ p
  · rw [gradeBand_Dp p ⟨h67, not_le.1 h70⟩]
    exact le_trans (by decide) (gradeRankGE_Dp q (by linarith))
  by_cases h65 : (65 : ℚ) ≤ p
  · rw [gradeBand_D p ⟨h65, not_le.1 h67⟩]
    exact le_trans (by decide) (gradeRankGE_D q (by linarith))
  by_cases h60 : (60 : ℚ) ≤ p
  · rw [gradeBand_Dm p ⟨h60, not_le.1 h65⟩]
    exact le_trans (by decide) (gradeRankGE_Dm q (by linarith))
  rw [gradeBand_F p (not_le.1 h60)]
  exact Nat.zero_le _

/-- C4: `getLetterGrade` maps every rational percentage to exactly one grade
via inclusive lower bounds of the fixed band table, every value below 60
maps to "F", `getLetterGrade 97 = "A+"`, `getLetterGrade 96.999 = "A"`, and
the mapping is monotone in the percentage. -/
theorem getLetterGrade_bands (p : ℚ) :
    (97 ≤ p → getLetterGrade p = "A+") ∧
    (93 ≤ p ∧ p < 97 → getLetterGrade p = "A") ∧
    (90 ≤ p ∧ p < 93 → getLetterGrade p = "A-") ∧
    (87 ≤ p ∧ p < 90 → getLetterGrade p = "B+") ∧
    (83 ≤ p ∧ p < 87 → getLetterGrade p = "B") ∧
    (80 ≤ p ∧ p < 83 → getLetterGrade p = "B-") ∧
    (77 ≤ p ∧ p < 80 → getLetterGrade p = "C+") ∧
    (73 ≤ p ∧ p < 77 → getLetterGrade p = "C") ∧
    (70 ≤ p ∧ p < 73 → getLetterGrade p = "C-") ∧
    (67 ≤ p ∧ p < 70 → getLetterGrade p = "D+") ∧
    (65 ≤ p ∧ p < 67 → getLetterGrade p = "D") ∧
    (60 ≤ p ∧ p < 65 → getLetterGrade p = "D-") ∧
    (p < 60 → getLetterGrade p = "F") ∧
    getLetterGrade 97 = "A+" ∧ getLetterGrade 96.999 = "A" ∧
    (∀ q : ℚ, p ≤ q → gradeRank (getLetterGrade p) ≤ gradeRank (getLetterGrade q)) :=
  ⟨gradeBand_Ap p, gradeBand_A p, gradeBand_Am p, gradeBand_Bp p, gradeBand_B p,
    gradeBand_Bm p, gradeBand_Cp p, gradeBand_C p, gradeBand_Cm p, gradeBand_Dp p,
    gradeBand_D p, gradeBand_Dm p, gradeBand_F p,
    gradeBand_Ap 97 (le_refl 97),
    gradeBand_A 96.999 (by norm_num),
    fun q hpq => getLetterGrade_mono p q hpq⟩

/-- Witness for C4: the band implications applied at the concrete boundary
percentage 97. -/
theorem getLetterGrade_bands_witness :
    (97 : ℚ) ≤ 97 ∧ getLetterGrade 97 = "A+" :=
  ⟨le_refl 97, (getLetterGrade_bands 97).1 (le_refl 97)⟩

/-! ## Helper lemmas for the Safety tiering claim -/

lemma safetyCheckDestructive_none (c : String)
    (h : (destructiveFound c).length = 0) :
    (safetyCheckDestructive c).1 = 3 := by
  simp only [safetyCheckDestructive]
  rw [if_pos h]

lemma safetyCheckDestructive_confirmed (c : String)
    (h1 : (destructiveFound c).length ≠ 0) (h2 : hasConfirmation c = true) :
    (safetyCheckDestructive c).1 = 2 := by
  simp only [safetyCheckDestructive]
  rw [if_neg h1, if_pos h2]

lemma safetyCheckDestructive_unconfirmed (c : String)
    (h1 : (destructiveFound c).length ≠ 0) (h2 : hasConfirmation c = false) :
    (safetyCheckDestructive c).1 = 0 := by
  simp only [safetyCheckDestructive]
  rw [if_neg h1, if_neg (by simp [h2])]

lemma safetyRest_bounds (c : String) : 0 ≤ safetyRest c ∧ safetyRest c ≤ 7 := by
  obtain ⟨-, l2, u2⟩ := safetyCheckSecrets_pts c
  obtain ⟨-, l3, u3⟩ := safetyCheckLoops_pts c
  obtain ⟨-, l4, u4⟩ := safetyCheckNetwork_pts c
  obtain ⟨-, l5, u5⟩ := safetyCheckPermissions_pts c
  unfold safetyRest
  constructor <;> linarith

lemma scoreSafety_decompose (s : ParsedSkill) :
    (scoreSafety s).score =
      min ((safetyCheckDestructive (jsToLower s.skillMdContent)).1 +
        safetyRest (jsToLower s.skillMdContent)) 10 := by
  have h : (scoreSafety s).score =
      min ((safetyCheckDestructive (jsToLower s.skillMdContent)).1 +
        (safetyCheckSecrets (jsToLower s.skillMdContent)).1 +
        (safetyCheckLoops (jsToLower s.skillMdContent)).1 +
        (safetyCheckNetwork (jsToLower s.skillMdContent)).1 +
        (safetyCheckPermissions (jsToLower s.skillMdContent)).1) 10 := rfl
  rw [h]
  unfold safetyRest
  congr 1
  ring

/-- C5: among documents identical on the four non-destructive Safety
sub-checks, one with a destructive token and no confirmation language
scores strictly below the same document with confirmation language added,
which scores strictly below a document with no destructive tokens at
all. -/
theorem safety_tiering (s1 s2 s3 : ParsedSkill)
    (h1d : (destructiveFound (jsToLower s1.skillMdContent)).length ≠ 0)
    (h1c : hasConfirmation (jsToLower s1.skillMdContent) = false)
    (h2d : (destructiveFound (jsToLower s2.skillMdContent)).length ≠ 0)
    (h2c : hasConfirmation (jsToLower s2.skillMdContent) = true)
    (h3d : (destructiveFound (jsToLower s3.skillMdContent)).length = 0)
    (h12 : safetyRest (jsToLower s1.skillMdContent) =
      safetyRest (jsToLower s2.skillMdContent))
    (h23 : safetyRest (jsToLower s2.skillMdContent) =
      safetyRest (jsToLower s3.skillMdContent)) :
    (scoreSafety s1).score < (scoreSafety s2).score ∧
    (scoreSafety s2).score < (scoreSafety s3).score := by
  obtain ⟨r1l, r1u⟩ := safetyRest_bounds (jsToLower s1.skillMdContent)
  obtain ⟨r2l, r2u⟩ := safetyRest_bounds (jsToLower s2.skillMdContent)
  obtain ⟨r3l, r3u⟩ := safetyRest_bounds (jsToLower s3.skillMdContent)
  rw [scoreSafety_decompose s1, scoreSafety_decompose s2, scoreSafety_decompose s3,
    safetyCheckDestructive_unconfirmed _ h1d h1c,
    safetyCheckDestructive_confirmed _ h2d h2c,
    safetyCheckDestructive_none _ h3d,
    min_eq_left (by linarith), min_eq_left (by linarith), min_eq_left (by linarith)]
  constructor <;> linarith

/-- Witness for C5: `"rm -rf"` < `"rm -rf confirm"` < `""` on Safety. -/
theorem safety_tiering_witness :
    (scoreSafety rmSkill).score < (scoreSafety rmConfirmSkill).score ∧
    (scoreSafety rmConfirmSkill).score < (scoreSafety cleanSkill).score := by
  have h1 : (safetyCheckSecrets (jsToLower rmSkill.skillMdContent)).1 = 3 := by
    simp only [safetyCheckSecrets]; rw [if_pos (by decide)]
  have h2 : (safetyCheckLoops (jsToLower rmSkill.skillMdContent)).1 = 1 := by
    simp only [safetyCheckLoops]; rw [if_pos (by decide)]
  have h3 : (safetyCheckNetwork (jsToLower rmSkill.skillMdContent)).1 = 1 := by
    simp only [safetyCheckNetwork]; rw [if_neg (by decide)]
  have h4 : (safetyCheckPermissions (jsToLower rmSkill.skillMdContent)).1 = 2 := by
    simp only [safetyCheckPermissions]; rw [if_pos (by decide)]
  have g1 : (safetyCheckSecrets (jsToLower rmConfirmSkill.skillMdContent)).1 = 3 := by
    simp only [safetyCheckSecrets]; rw [if_pos (by decide)]
  have g2 : (safetyCheckLoops (jsToLower rmConfirmSkill.skillMdContent)).1 = 1 := by
    simp only [safetyCheckLoops]; rw [if_pos (by decide)]
  have g3 : (safetyCheckNetwork (jsToLower rmConfirmSkill.skillMdContent)).1 = 1 := by
    simp only [safetyCheckNetwork]; rw [if_neg (by decide)]
  have g4 : (safetyCheckPermissions (jsToLower rmConfirmSkill.skillMdContent)).1 = 2 := by
    simp only [safetyCheckPermissions]; rw [if_pos (by decide)]
  have f1 : (safetyCheckSecrets (jsToLower cleanSkill.skillMdContent)).1 = 3 := by
    simp only [safetyCheckSecrets]; rw [if_pos (by decide)]
  have f2 : (safetyCheckLoops (jsToLower cleanSkill.skillMdContent)).1 = 1 := by
    simp only [safetyCheckLoops]; rw [if_pos (by decide)]
  have f3 : (safetyCheckNetwork (jsToLower cleanSkill.skillMdContent)).1 = 1 := by
    simp only [safetyCheckNetwork]; rw [if_neg (by decide)]
  have f4 : (safetyCheckPermissions (jsToLower cleanSkill.skillMdContent)).1 = 2 := by
    simp only [safetyCheckPermissions]; rw [if_pos (by decide)]
  have hr1 : safetyRest (jsToLower rmSkill.skillMdContent) = 7 := by
    unfold safetyRest; rw [h1, h2, h3, h4]; norm_num
  have hr2 : safetyRest (jsToLower rmConfirmSkill.skillMdContent) = 7 := by
    unfold safetyRest; rw [g1, g2, g3, g4]; norm_num
  have hr3 : safetyRest (jsToLower cleanSkill.skillMdContent) = 7 := by
    unfold safetyRest; rw [f1, f2, f3, f4]; norm_num
  exact safety_tiering rmSkill rmConfirmSkill cleanSkill
    (by decide) (by decide) (by decide) (by decide) (by decide)
    (hr1.trans hr2.symm) (hr2.trans hr3.symm)

/-! ## Concrete evaluations of the scenario-B document and the missing
document, one sub-check at a time. -/

lemma scoreStructure_danger :
    (scoreStructure dangerSkill).score = 4.5 := by
  have e1 : (structureCheckExists dangerSkill).1 = 3 := by
    simp only [structureCheckExists]
    rw [if_pos (by decide)]
  have e2 : (structureCheckName dangerSkill).1 = 0 := by
    simp only [structureCheckName]
    rw [if_neg (by decide)]
  have e3 : (structureCheckDescription dangerSkill).1 = 0 := by
    simp only [structureCheckDescription]
    rw [if_neg (by decide), if_neg (by decide)]
  have e4 : (structureCheckOrganization dangerSkill).1 = 1 := by
    simp only [structureCheckOrganization]
    rw [if_pos (by decide), if_pos (by decide), if_pos (by decide)]
    norm_num [jsRound, min_def]
  have e5 : (structureCheckOutputSpec dangerSkill).1 = 0 := by
    simp only [structureCheckOutputSpec]
    rw [if_neg (by decide)]
  have e6 : (structureCheckConventions dangerSkill).1 = 0.5 := by
    simp only [structureCheckConventions]
    rw [if_pos (by decide), if_neg (by decide)]
    norm_num
  have hs : (scoreStructure dangerSkill).score =
      min ((structureCheckExists dangerSkill).1 + (structureCheckName dangerSkill).1 +
        (structureCheckDescription dangerSkill).1 + (structureCheckOrganization dangerSkill).1 +
        (structureCheckOutputSpec dangerSkill).1 + (structureCheckConventions dangerSkill).1) 10 := rfl
  rw [hs, e1, e2, e3, e4, e5, e6]
  norm_num [min_def]

lemma scoreClarity_danger :
    (scoreClarity dangerSkill).score = 6 := by
  have e1 : (clarityCheckSpecific (jsToLower dangerSkill.skillMdContent)).1 = 2 := by
    simp only [clarityCheckSpecific]
    rw [if_neg (by decide), if_pos (by decide)]
  have e2 : (clarityCheckAmbiguity (jsToLower dangerSkill.skillMdContent)).1 = 3 := by
    simp only [clarityCheckAmbiguity]
    rw [if_pos (by decide)]
  have e3 : (clarityCheckOrder dangerSkill.skillMdContent (jsToLower dangerSkill.skillMdContent)).1 = 1 := by
    simp only [clarityCheckOrder]
    rw [if_neg (by decide)]
  have e4 : (clarityCheckAgent (jsToLower dangerSkill.skillMdContent)).1 = 0 := by
    simp only [clarityCheckAgent]
    rw [if_neg (by decide), if_neg (by decide)]
  have hs : (scoreClarity dangerSkill).score =
      min ((clarityCheckSpecific (jsToLower dangerSkill.skillMdContent)).1 + (clarityCheckAmbiguity (jsToLower dangerSkill.skillMdContent)).1 +
        (clarityCheckOrder dangerSkill.skillMdContent (jsToLower dangerSkill.skillMdContent)).1 + (clarityCheckAgent (jsToLower dangerSkill.skillMdContent)).1) 10 := rfl
  rw [hs, e1, e2, e3, e4]
  norm_num [min_def]

lemma scoreSafety_danger :
    (scoreSafety dangerSkill).score = 7 := by
  have e1 : (safetyCheckDestructive (jsToLower dangerSkill.skillMdContent)).1 = 0 := by
    simp only [safetyCheckDestructive]
    rw [if_neg (by decide), if_neg (by decide)]
  have e2 : (safetyCheckSecrets (jsToLower dangerSkill.skillMdContent)).1 = 3 := by
    simp only [safetyCheckSecrets]
    rw [if_pos (by decide)]
  have e3 : (safetyCheckLoops (jsToLower dangerSkill.skillMdContent)).1 = 1 := by
    simp only [safetyCheckLoops]
    rw [if_pos (by decide)]
  have e4 : (safetyCheckNetwork (jsToLower dangerSkill.skillMdContent)).1 = 1 := by
    simp only [safetyCheckNetwork]
    rw [if_neg (by decide)]
  have e5 : (safetyCheckPermissions (jsToLower dangerSkill.skillMdContent)).1 = 2 := by
    simp only [safetyCheckPermissions]
    rw [if_pos (by decide)]
  have hs : (scoreSafety dangerSkill).score =
      min ((safetyCheckDestructive (jsToLower dangerSkill.skillMdContent)).1 + (safetyCheckSecrets (jsToLower dangerSkill.skillMdContent)).1 +
        (safetyCheckLoops (jsToLower dangerSkill.skillMdContent)).1 + (safetyCheckNetwork (jsToLower dangerSkill.skillMdContent)).1 +
        (safetyCheckPermissions (jsToLower dangerSkill.skillMdContent)).1) 10 := rfl
  rw [hs, e1, e2, e3, e4, e5]
  norm_num [min_def]

lemma scoreDependencies_danger :
    (scoreDependencies dangerSkill).score = 0 := by
  have e1 : (dependenciesCheckTools (jsToLower dangerSkill.skillMdContent)).1 = 0 := by
    simp only [dependenciesCheckTools]
    rw [if_neg (by decide)]
  have e2 : (dependenciesCheckChecks (jsToLower dangerSkill.skillMdContent)).1 = 0 := by
    simp only [dependenciesCheckChecks]
    rw [if_neg (by decide)]
  have e3 : (dependenciesCheckInstall (jsToLower dangerSkill.skillMdContent)).1 = 0 := by
    simp only [dependenciesCheckInstall]
    rw [if_neg (by decide)]
  have e4 : (dependenciesCheckEnv (jsToLower dangerSkill.skillMdContent)).1 = 0 := by
    simp only [dependenciesCheckEnv]
    rw [if_neg (by decide)]
  have hs : (scoreDependencies dangerSkill).score =
      min ((dependenciesCheckTools (jsToLower dangerSkill.skillMdContent)).1 + (dependenciesCheckChecks (jsToLower dangerSkill.skillMdContent)).1 +
        (dependenciesCheckInstall (jsToLower dangerSkill.skillMdContent)).1 + (dependenciesCheckEnv (jsToLower dangerSkill.skillMdContent)).1) 10 := rfl
  rw [hs, e1, e2, e3, e4]
  norm_num [min_def]

lemma scoreErrorHandling_danger :
    (scoreErrorHandling dangerSkill).score = 0 := by
  have e1 : (errorHandlingCheckErrors (jsToLower dangerSkill.skillMdContent)).1 = 0 := by
    simp only [errorHandlingCheckErrors]
    rw [if_neg (by decide)]
  have e2 : (errorHandlingCheckFallbacks (jsToLower dangerSkill.skillMdContent)).1 = 0 := by
    simp only [errorHandlingCheckFallbacks]
    rw [if_neg (by decide)]
  have e3 : (errorHandlingCheckValidation (jsToLower dangerSkill.skillMdContent)).1 = 0 := by
    simp only [errorHandlingCheckValidation]
    rw [if_neg (by decide)]
  have e4 : (errorHandlingCheckEdge (jsToLower dangerSkill.skillMdContent)).1 = 0 := by
    simp only [errorHandlingCheckEdge]
    rw [if_neg (by decide)]
  have hs : (scoreErrorHandling dangerSkill).score =
      min ((errorHandlingCheckErrors (jsToLower dangerSkill.skillMdContent)).1 + (errorHandlingCheckFallbacks (jsToLower dangerSkill.skillMdContent)).1 +
        (errorHandlingCheckValidation (jsToLower dangerSkill.skillMdContent)).1 + (errorHandlingCheckEdge (jsToLower dangerSkill.skillMdContent)).1) 10 := rfl
  rw [hs, e1, e2, e3, e4]
  norm_num [min_def]

lemma scoreScope_danger :
    (scoreScope dangerSkill).score = 6 := by
  have e1 : (scopeCheckSingleResponsibility dangerSkill).1 = 2 := by
    simp only [scopeCheckSingleResponsibility]
    rw [if_pos (by decide)]
  have e2 : (scopeCheckAccurate dangerSkill).1 = 2 := by
    simp only [scopeCheckAccurate]
    rw [if_pos (by decide)]
  have e3 : (scopeCheckTriggers (jsToLower dangerSkill.skillMdContent)).1 = 1 := by
    simp only [scopeCheckTriggers]
    rw [if_neg (by decide)]
  have e4 : (scopeCheckNegative (jsToLower dangerSkill.skillMdContent)).1 = 0 := by
    simp only [scopeCheckNegative]
    rw [if_neg (by decide)]
  have e5 : (scopeCheckRouting (jsToLower dangerSkill.skillMdContent)).1 = 0 := by
    simp only [scopeCheckRouting]
    rw [if_neg (by decide)]
  have e6 : (scopeCheckConflicts (jsToLower dangerSkill.skillMdContent)).1 = 1 := by
    simp only [scopeCheckConflicts]
    rw [if_pos (by decide)]
  have hs : (scoreScope dangerSkill).score =
      min ((scopeCheckSingleResponsibility dangerSkill).1 + (scopeCheckAccurate dangerSkill).1 +
        (scopeCheckTriggers (jsToLower dangerSkill.skillMdContent)).1 + (scopeCheckNegative (jsToLower dangerSkill.skillMdContent)).1 +
        (scopeCheckRouting (jsToLower dangerSkill.skillMdContent)).1 + (scopeCheckConflicts (jsToLower dangerSkill.skillMdContent)).1) 10 := rfl
  rw [hs, e1, e2, e3, e4, e5, e6]
  norm_num [min_def]

lemma scoreDocumentation_danger :
    (scoreDocumentation dangerSkill).score = 0 := by
  have e1 : (documentationCheckExamples (jsToLower dangerSkill.skillMdContent)).1 = 0 := by
    simp only [documentationCheckExamples]
    rw [if_neg (by decide)]
  have e2 : (documentationCheckInOut (jsToLower dangerSkill.skillMdContent)).1 = 0 := by
    simp only [documentationCheckInOut]
    rw [if_neg (by decide)]
  have e3 : (documentationCheckLimitations (jsToLower dangerSkill.skillMdContent)).1 = 0 := by
    simp only [documentationCheckLimitations]
    rw [if_neg (by decide)]
  have e4 : (documentationCheckTroubleshooting (jsToLower dangerSkill.skillMdContent)).1 = 0 := by
    simp only [documentationCheckTroubleshooting]
    rw [if_neg (by decide)]
  have hcbc : countTripleTicks dangerSkill.skillMdContent.toList = 0 := by decide
  have e5 : (documentationCheckTemplates dangerSkill.skillMdContent (jsToLower dangerSkill.skillMdContent)).1 = 0 := by
    simp only [documentationCheckTemplates]
    rw [if_neg (by
        rw [hcbc]
        simp only [Bool.and_eq_true, decide_eq_true_eq]
        intro h
        exact absurd h.1 (by norm_num)),
      if_neg (by rw [hcbc]; norm_num)]
  have hs : (scoreDocumentation dangerSkill).score =
      min ((documentationCheckExamples (jsToLower dangerSkill.skillMdContent)).1 + (documentationCheckInOut (jsToLower dangerSkill.skillMdContent)).1 +
        (documentationCheckLimitations (jsToLower dangerSkill.skillMdContent)).1 + (documentationCheckTroubleshooting (jsToLower dangerSkill.skillMdContent)).1 +
        (documentationCheckTemplates dangerSkill.skillMdContent (jsToLower dangerSkill.skillMdContent)).1) 10 := rfl
  rw [hs, e1, e2, e3, e4, e5]
  norm_num [min_def]

lemma scorePortability_danger :
    (scorePortability dangerSkill).score = 7 := by
  have e1 : (portabilityCheckCrossPlatform dangerSkill.skillMdContent).1 = 3 := by
    simp only [portabilityCheckCrossPlatform]
    rw [if_pos (by decide)]
  have e2 : (portabilityCheckHardcoded dangerSkill.skillMdContent).1 = 2 := by
    simp only [portabilityCheckHardcoded]
    rw [if_pos (by decide)]
  have e3 : (portabilityCheckPlatformNotes dangerSkill.skillMdContent).1 = 0 := by
    simp only [portabilityCheckPlatformNotes]
    rw [if_neg (by decide)]
  have e4 : (portabilityCheckRelative dangerSkill.skillMdContent).1 = 2 := by
    simp only [portabilityCheckRelative]
    rw [if_pos (by decide)]
  have hs : (scorePortability dangerSkill).score =
      min ((portabilityCheckCrossPlatform dangerSkill.skillMdContent).1 + (portabilityCheckHardcoded dangerSkill.skillMdContent).1 +
        (portabilityCheckPlatformNotes dangerSkill.skillMdContent).1 + (portabilityCheckRelative dangerSkill.skillMdContent).1) 10 := rfl
  rw [hs, e1, e2, e3, e4]
  norm_num [min_def]

lemma scoreStructure_missing :
    (scoreStructure missingSkill).score = 1 := by
  have e1 : (structureCheckExists missingSkill).1 = 0 := by
    simp only [structureCheckExists]
    rw [if_neg (by decide)]
  have e2 : (structureCheckName missingSkill).1 = 0 := by
    simp only [structureCheckName]
    rw [if_neg (by decide)]
  have e3 : (structureCheckDescription missingSkill).1 = 0 := by
    simp only [structureCheckDescription]
    rw [if_neg (by decide), if_neg (by decide)]
  have e4 : (structureCheckOrganization missingSkill).1 = 1 := by
    simp only [structureCheckOrganization]
    rw [if_pos (by decide), if_pos (by decide), if_pos (by decide)]
    norm_num [jsRound, min_def]
  have e5 : (structureCheckOutputSpec missingSkill).1 = 0 := by
    simp only [structureCheckOutputSpec]
    rw [if_neg (by decide)]
  have e6 : (structureCheckConventions missingSkill).1 = 0 := by
    simp only [structureCheckConventions]
    rw [if_neg (by decide), if_neg (by decide)]
    norm_num
  have hs : (scoreStructure missingSkill).score =
      min ((structureCheckExists missingSkill).1 + (structureCheckName missingSkill).1 +
        (structureCheckDescription missingSkill).1 + (structureCheckOrganization missingSkill).1 +
        (structureCheckOutputSpec missingSkill).1 + (structureCheckConventions missingSkill).1) 10 := rfl
  rw [hs, e1, e2, e3, e4, e5, e6]
  norm_num [min_def]

lemma scoreClarity_missing :
    (scoreClarity missingSkill).score = 4 := by
  have e1 : (clarityCheckSpecific (jsToLower missingSkill.skillMdContent)).1 = 0 := by
    simp only [clarityCheckSpecific]
    rw [if_neg (by decide), if_neg (by decide)]
  have e2 : (clarityCheckAmbiguity (jsToLower missingSkill.skillMdContent)).1 = 3 := by
    simp only [clarityCheckAmbiguity]
    rw [if_pos (by decide)]
  have e3 : (clarityCheckOrder missingSkill.skillMdContent (jsToLower missingSkill.skillMdContent)).1 = 1 := by
    simp only [clarityCheckOrder]
    rw [if_neg (by decide)]
  have e4 : (clarityCheckAgent (jsToLower missingSkill.skillMdContent)).1 = 0 := by
    simp only [clarityCheckAgent]
    rw [if_neg (by decide), if_neg (by decide)]
  have hs : (scoreClarity missingSkill).score =
      min ((clarityCheckSpecific (jsToLower missingSkill.skillMdContent)).1 + (clarityCheckAmbiguity (jsToLower missingSkill.skillMdContent)).1 +
        (clarityCheckOrder missingSkill.skillMdContent (jsToLower missingSkill.skillMdContent)).1 + (clarityCheckAgent (jsToLower missingSkill.skillMdContent)).1) 10 := rfl
  rw [hs, e1, e2, e3, e4]
  norm_num [min_def]

lemma scoreSafety_missing :
    (scoreSafety missingSkill).score = 10 := by
  have e1 : (safetyCheckDestructive (jsToLower missingSkill.skillMdContent)).1 = 3 := by
    simp only [safetyCheckDestructive]
    rw [if_pos (by decide)]
  have e2 : (safetyCheckSecrets (jsToLower missingSkill.skillMdContent)).1 = 3 := by
    simp only [safetyCheckSecrets]
    rw [if_pos (by decide)]
  have e3 : (safetyCheckLoops (jsToLower missingSkill.skillMdContent)).1 = 1 := by
    simp only [safetyCheckLoops]
    rw [if_pos (by decide)]
  have e4 : (safetyCheckNetwork (jsToLower missingSkill.skillMdContent)).1 = 1 := by
    simp only [safetyCheckNetwork]
    rw [if_neg (by decide)]
  have e5 : (safetyCheckPermissions (jsToLower missingSkill.skillMdContent)).1 = 2 := by
    simp only [safetyCheckPermissions]
    rw [if_pos (by decide)]
  have hs : (scoreSafety missingSkill).score =
      min ((safetyCheckDestructive (jsToLower missingSkill.skillMdContent)).1 + (safetyCheckSecrets (jsToLower missingSkill.skillMdContent)).1 +
        (safetyCheckLoops (jsToLower missingSkill.skillMdContent)).1 + (safetyCheckNetwork (jsToLower missingSkill.skillMdContent)).1 +
        (safetyCheckPermissions (jsToLower missingSkill.skillMdContent)).1) 10 := rfl
  rw [hs, e1, e2, e3, e4, e5]
  norm_num [min_def]

lemma scoreDependencies_missing :
    (scoreDependencies missingSkill).score = 0 := by
  have e1 : (dependenciesCheckTools (jsToLower missingSkill.skillMdContent)).1 = 0 := by
    simp only [dependenciesCheckTools]
    rw [if_neg (by decide)]
  have e2 : (dependenciesCheckChecks (jsToLower missingSkill.skillMdContent)).1 = 0 := by
    simp only [dependenciesCheckChecks]
    rw [if_neg (by decide)]
  have e3 : (dependenciesCheckInstall (jsToLower missingSkill.skillMdContent)).1 = 0 := by
    simp only [dependenciesCheckInstall]
    rw [if_neg (by decide)]
  have e4 : (dependenciesCheckEnv (jsToLower missingSkill.skillMdContent)).1 = 0 := by
    simp only [dependenciesCheckEnv]
    rw [if_neg (by decide)]
  have hs : (scoreDependencies missingSkill).score =
      min ((dependenciesCheckTools (jsToLower missingSkill.skillMdContent)).1 + (dependenciesCheckChecks (jsToLower missingSkill.skillMdContent)).1 +
        (dependenciesCheckInstall (jsToLower missingSkill.skillMdContent)).1 + (dependenciesCheckEnv (jsToLower missingSkill.skillMdContent)).1) 10 := rfl
  rw [hs, e1, e2, e3, e4]
  norm_num [min_def]

lemma scoreErrorHandling_missing :
    (scoreErrorHandling missingSkill).score = 0 := by
  have e1 : (errorHandlingCheckErrors (jsToLower missingSkill.skillMdContent)).1 = 0 := by
    simp only [errorHandlingCheckErrors]
    rw [if_neg (by decide)]
  have e2 : (errorHandlingCheckFallbacks (jsToLower missingSkill.skillMdContent)).1 = 0 := by
    simp only [errorHandlingCheckFallbacks]
    rw [if_neg (by decide)]
  have e3 : (errorHandlingCheckValidation (jsToLower missingSkill.skillMdContent)).1 = 0 := by
    simp only [errorHandlingCheckValidation]
    rw [if_neg (by decide)]
  have e4 : (errorHandlingCheckEdge (jsToLower missingSkill.skillMdContent)).1 = 0 := by
    simp only [errorHandlingCheckEdge]
    rw [if_neg (by decide)]
  have hs : (scoreErrorHandling missingSkill).score =
      min ((errorHandlingCheckErrors (jsToLower missingSkill.skillMdContent)).1 + (errorHandlingCheckFallbacks (jsToLower missingSkill.skillMdContent)).1 +
        (errorHandlingCheckValidation (jsToLower missingSkill.skillMdContent)).1 + (errorHandlingCheckEdge (jsToLower missingSkill.skillMdContent)).1) 10 := rfl
  rw [hs, e1, e2, e3, e4]
  norm_num [min_def]

lemma scoreScope_missing :
    (scoreScope missingSkill).score = 6 := by
  have e1 : (scopeCheckSingleResponsibility missingSkill).1 = 2 := by
    simp only [scopeCheckSingleResponsibility]
    rw [if_pos (by decide)]
  have e2 : (scopeCheckAccurate missingSkill).1 = 2 := by
    simp only [scopeCheckAccurate]
    rw [if_pos (by decide)]
  have e3 : (scopeCheckTriggers (jsToLower missingSkill.skillMdContent)).1 = 1 := by
    simp only [scopeCheckTriggers]
    rw [if_neg (by decide)]
  have e4 : (scopeCheckNegative (jsToLower missingSkill.skillMdContent)).1 = 0 := by
    simp only [scopeCheckNegative]
    rw [if_neg (by decide)]
  have e5 : (scopeCheckRouting (jsToLower missingSkill.skillMdContent)).1 = 0 := by
    simp only [scopeCheckRouting]
    rw [if_neg (by decide)]
  have e6 : (scopeCheckConflicts (jsToLower missingSkill.skillMdContent)).1 = 1 := by
    simp only [scopeCheckConflicts]
    rw [if_pos (by decide)]
  have hs : (scoreScope missingSkill).score =
      min ((scopeCheckSingleResponsibility missingSkill).1 + (scopeCheckAccurate missingSkill).1 +
        (scopeCheckTriggers (jsToLower missingSkill.skillMdContent)).1 + (scopeCheckNegative (jsToLower missingSkill.skillMdContent)).1 +
        (scopeCheckRouting (jsToLower missingSkill.skillMdContent)).1 + (scopeCheckConflicts (jsToLower missingSkill.skillMdContent)).1) 10 := rfl
  rw [hs, e1, e2, e3, e4, e5, e6]
  norm_num [min_def]

lemma scoreDocumentation_missing :
    (scoreDocumentation missingSkill).score = 0 := by
  have e1 : (documentationCheckExamples (jsToLower missingSkill.skillMdContent)).1 = 0 := by
    simp only [documentationCheckExamples]
    rw [if_neg (by decide)]
  have e2 : (documentationCheckInOut (jsToLower missingSkill.skillMdContent)).1 = 0 := by
    simp only [documentationCheckInOut]
    rw [if_neg (by decide)]
  have e3 : (documentationCheckLimitations (jsToLower missingSkill.skillMdContent)).1 = 0 := by
    simp only [documentationCheckLimitations]
    rw [if_neg (by decide)]
  have e4 : (documentationCheckTroubleshooting (jsToLower missingSkill.skillMdContent)).1 = 0 := by
    simp only [documentationCheckTroubleshooting]
    rw [if_neg (by decide)]
  have hcbc : countTripleTicks missingSkill.skillMdContent.toList = 0 := by decide
  have e5 : (documentationCheckTemplates missingSkill.skillMdContent (jsToLower missingSkill.skillMdContent)).1 = 0 := by
    simp only [documentationCheckTemplates]
    rw [if_neg (by
        rw [hcbc]
        simp only [Bool.and_eq_true, decide_eq_true_eq]
        intro h
        exact absurd h.1 (by norm_num)),
      if_neg (by rw [hcbc]; norm_num)]
  have hs : (scoreDocumentation missingSkill).score =
      min ((documentationCheckExamples (jsToLower missingSkill.skillMdContent)).1 + (documentationCheckInOut (jsToLower missingSkill.skillMdContent)).1 +
        (documentationCheckLimitations (jsToLower missingSkill.skillMdContent)).1 + (documentationCheckTroubleshooting (jsToLower missingSkill.skillMdContent)).1 +
        (documentationCheckTemplates missingSkill.skillMdContent (jsToLower missingSkill.skillMdContent)).1) 10 := rfl
  rw [hs, e1, e2, e3, e4, e5]
  norm_num [min_def]

lemma scorePortability_missing :
    (scorePortability missingSkill).score = 7 := by
  have e1 : (portabilityCheckCrossPlatform missingSkill.skillMdContent).1 = 3 := by
    simp only [portabilityCheckCrossPlatform]
    rw [if_pos (by decide)]
  have e2 : (portabilityCheckHardcoded missingSkill.skillMdContent).1 = 2 := by
    simp only [portabilityCheckHardcoded]
    rw [if_pos (by decide)]
  have e3 : (portabilityCheckPlatformNotes missingSkill.skillMdContent).1 = 0 := by
    simp only [portabilityCheckPlatformNotes]
    rw [if_neg (by decide)]
  have e4 : (portabilityCheckRelative missingSkill.skillMdContent).1 = 2 := by
    simp only [portabilityCheckRelative]
    rw [if_pos (by decide)]
  have hs : (scorePortability missingSkill).score =
      min ((portabilityCheckCrossPlatform missingSkill.skillMdContent).1 + (portabilityCheckHardcoded missingSkill.skillMdContent).1 +
        (portabilityCheckPlatformNotes missingSkill.skillMdContent).1 + (portabilityCheckRelative missingSkill.skillMdContent).1) 10 := rfl
  rw [hs, e1, e2, e3, e4]
  norm_num [min_def]

/-! ## Aggregate evaluations of the two scenario documents -/

lemma scoreSkill_danger_percentage :
    (scoreSkill dangerSkill 0).percentage = 42.25 := by
  have htot : (scoreSkill dangerSkill 0).totalScore =
      0 + (scoreStructure dangerSkill).score * 0.15 +
        (scoreClarity dangerSkill).score * 0.20 +
        (scoreSafety dangerSkill).score * 0.20 +
        (scoreDependencies dangerSkill).score * 0.10 +
        (scoreErrorHandling dangerSkill).score * 0.10 +
        (scoreScope dangerSkill).score * 0.10 +
        (scoreDocumentation dangerSkill).score * 0.10 +
        (scorePortability dangerSkill).score * 0.05 := rfl
  have hpct : (scoreSkill dangerSkill 0).percentage =
      (scoreSkill dangerSkill 0).totalScore / 10 * 100 := rfl
  rw [hpct, htot, scoreStructure_danger, scoreClarity_danger, scoreSafety_danger,
    scoreDependencies_danger, scoreErrorHandling_danger, scoreScope_danger,
    scoreDocumentation_danger, scorePortability_danger]
  norm_num

lemma scoreSkill_missing_percentage :
    (scoreSkill missingSkill 0).percentage = 39 := by
  have htot : (scoreSkill missingSkill 0).totalScore =
      0 + (scoreStructure missingSkill).score * 0.15 +
        (scoreClarity missingSkill).score * 0.20 +
        (scoreSafety missingSkill).score * 0.20 +
        (scoreDependencies missingSkill).score * 0.10 +
        (scoreErrorHandling missingSkill).score * 0.10 +
        (scoreScope missingSkill).score * 0.10 +
        (scoreDocumentation missingSkill).score * 0.10 +
        (scorePortability missingSkill).score * 0.05 := rfl
  have hpct : (scoreSkill missingSkill 0).percentage =
      (scoreSkill missingSkill 0).totalScore / 10 * 100 := rfl
  rw [hpct, htot, scoreStructure_missing, scoreClarity_missing, scoreSafety_missing,
    scoreDependencies_missing, scoreErrorHandling_missing, scoreScope_missing,
    scoreDocumentation_missing, scorePortability_missing]
  norm_num

lemma dangerSafety_percentage :
    (scoreCategory dangerSkill catSafety).percentage = 70 := by
  have h : (scoreCategory dangerSkill catSafety).percentage =
      (scoreSafety dangerSkill).score / 10 * 100 := rfl
  rw [h, scoreSafety_danger]
  norm_num

/-- C6 counterexample: the scenario-B document (`rm -rf /* `, no
confirmation language, no fallback language) does NOT score below 50% on
Safety — its Safety percentage is 70, because the secret/loop/network/
privilege sub-checks all award full vacuous credit. -/
theorem scenarioB_safety_not_below_50 :
    jsIncludes dangerSkill.skillMdContent "rm -rf /* " = true ∧
    hasConfirmation (jsToLower dangerSkill.skillMdContent) = false ∧
    (fallbackKeywords.any fun k =>
      jsIncludes (jsToLower dangerSkill.skillMdContent) k) = false ∧
    ¬ ((scoreCategory dangerSkill catSafety).percentage < 50) := by
  refine ⟨by decide, by decide, by decide, ?_⟩
  rw [dangerSafety_percentage]
  norm_num

/-- C6 amended: the scenario-B document scores 0 points on the
destructive-command sub-check (a `fail` finding), scores 0% (< 50%) on the
Error Handling category, and receives the overall letter grade F
(42.25%); the Safety category as a whole however scores 70%. -/
theorem scenarioB_amended :
    ((scoreCategory dangerSkill catSafety).findings[0]?).map (fun f => f.points) =
      some 0 ∧
    ((scoreCategory dangerSkill catSafety).findings[0]?).map (fun f => f.type) =
      some .fail ∧
    (scoreCategory dangerSkill catSafety).percentage = 70 ∧
    (scoreCategory dangerSkill catErrorHandling).percentage = 0 ∧
    (scoreCategory dangerSkill catErrorHandling).percentage < 50 ∧
    (scoreSkill dangerSkill 0).percentage = 42.25 ∧
    (scoreSkill dangerSkill 0).letterGrade = "F" := by
  have h0 : (scoreCategory dangerSkill catSafety).findings[0]? =
      some (safetyCheckDestructive (jsToLower dangerSkill.skillMdContent)).2 := rfl
  have hf : (safetyCheckDestructive (jsToLower dangerSkill.skillMdContent)).2 =
      ⟨.fail, "Dangerous commands without confirmation: " ++
        String.intercalate ", "
          (destructiveFound (jsToLower dangerSkill.skillMdContent)), 0⟩ := by
    simp only [safetyCheckDestructive]
    rw [if_neg (by decide), if_neg (by decide)]
  have heh : (scoreCategory dangerSkill catErrorHandling).percentage = 0 := by
    have h : (scoreCategory dangerSkill catErrorHandling).percentage =
        (scoreErrorHandling dangerSkill).score / 10 * 100 := rfl
    rw [h, scoreErrorHandling_danger]
    norm_num
  have hgrade : (scoreSkill dangerSkill 0).letterGrade = "F" := by
    have h : (scoreSkill dangerSkill 0).letterGrade =
        getLetterGrade ((scoreSkill dangerSkill 0).percentage) := rfl
    rw [h, scoreSkill_danger_percentage]
    exact gradeBand_F 42.25 (by norm_num)
  refine ⟨?_, ?_, dangerSafety_percentage, heh, ?_, scoreSkill_danger_percentage, hgrade⟩
  · rw [h0, hf]; rfl
  · rw [h0, hf]; rfl
  · rw [heh]; norm_num

/-- C7 counterexample: the missing document scores a perfect 10 (100%) on
the Safety category — the top, not the bottom, of its range. -/
theorem missing_doc_safety_full_score :
    missingSkill.skillMdExists = false ∧
    missingSkill.skillMdContent = "" ∧
    missingSkill.description = "" ∧
    missingSkill.files = [] ∧
    (scoreCategory missingSkill catSafety).score = 10 ∧
    (scoreCategory missingSkill catSafety).percentage = 100 := by
  refine ⟨rfl, rfl, rfl, rfl, scoreSafety_missing, ?_⟩
  have h : (scoreCategory missingSkill catSafety).percentage =
      (scoreSafety missingSkill).score / 10 * 100 := rfl
  rw [h, scoreSafety_missing]
  norm_num

/-- C7 amended: evaluating the missing document is total and returns a
well-formed SkillScore — 8 categories with scores (in rubric order)
1, 4, 10, 0, 0, 6, 0, 7 out of 10, overall 39% (< 60%) and letter grade F;
in particular Safety scores the full 10, so not every category is near the
bottom of its range. -/
theorem missing_doc_amended :
    (scoreSkill missingSkill 0).categoryScores.length = 8 ∧
    ((scoreSkill missingSkill 0).categoryScores.map (fun cs => cs.score)) =
      [1, 4, 10, 0, 0, 6, 0, 7] ∧
    (scoreSkill missingSkill 0).maxTotalScore = 10 ∧
    (scoreSkill missingSkill 0).percentage = 39 ∧
    (scoreSkill missingSkill 0).percentage < 60 ∧
    (scoreSkill missingSkill 0).letterGrade = "F" := by
  have hmap : ((scoreSkill missingSkill 0).categoryScores.map (fun cs => cs.score)) =
      [(scoreStructure missingSkill).score, (scoreClarity missingSkill).score,
       (scoreSafety missingSkill).score, (scoreDependencies missingSkill).score,
       (scoreErrorHandling missingSkill).score, (scoreScope missingSkill).score,
       (scoreDocumentation missingSkill).score, (scorePortability missingSkill).score] := rfl
  have hgrade : (scoreSkill missingSkill 0).letterGrade = "F" := by
    have h : (scoreSkill missingSkill 0).letterGrade =
        getLetterGrade ((scoreSkill missingSkill 0).percentage) := rfl
    rw [h, scoreSkill_missing_percentage]
    exact gradeBand_F 39 (by norm_num)
  refine ⟨rfl, ?_, rfl, scoreSkill_missing_percentage, ?_, hgrade⟩
  · rw [hmap, scoreStructure_missing, scoreClarity_missing, scoreSafety_missing,
      scoreDependencies_missing, scoreErrorHandling_missing, scoreScope_missing,
      scoreDocumentation_missing, scorePortability_missing]
  · rw [scoreSkill_missing_percentage]; norm_num

/-- C8: in a document whose absolute-path-shaped fragments are all
URL-embedded, the extractor does find the two path-shaped candidates, but
`findHardcodedPaths` discards both and returns the empty list, and the
Portability "no hardcoded paths" sub-check awards its full 2 points. -/
theorem path_classifier_precision :
    (extractPaths urlDoc.toList).map (fun l => String.mk l) =
      ["/cdn.example.com/CSS/styles.css", "/api/v2/fetch"] ∧
    findHardcodedPaths urlDoc = [] ∧
    (scorePortability urlSkill).findings[1]? =
      some ⟨.pass, "No hardcoded absolute paths found", 2⟩ := by
  refine ⟨by decide, by decide, ?_⟩
  have h : (scorePortability urlSkill).findings[1]? =
      some (portabilityCheckHardcoded urlDoc).2 := rfl
  have hf : (portabilityCheckHardcoded urlDoc).2 =
      ⟨.pass, "No hardcoded absolute paths found", 2⟩ := by
    simp only [portabilityCheckHardcoded]
    rw [if_pos (by decide)]
  rw [h, hf]

/-- C9 counterexample: a document containing the fragment `/home/user/docs`
but also mentioning `.com` yields an EMPTY list — the fragment is discarded
by the two-lowercase-segment-near-`.com` rule — so the claim fails as
stated. -/
theorem path_classifier_recall_dotcom :
    jsIncludes dotcomDoc "/home/user/docs" = true ∧
    jsIncludes dotcomDoc ".com" = true ∧
    findHardcodedPaths dotcomDoc = [] :=
  ⟨by decide, by decide, by decide⟩

/-- C9 amended: for a document containing `/home/user/docs` with no `.com`
mention and no URL context, and for a document containing
`C:\Users\name\file`, `findHardcodedPaths` returns the non-empty list
consisting of that fragment, and the Portability "no hardcoded paths"
sub-check fails with 0 points. -/
theorem path_classifier_recall_amended :
    findHardcodedPaths homeDoc = ["/home/user/docs"] ∧
    findHardcodedPaths winDoc = ["C:\\Users\\name\\file"] ∧
    (scorePortability homeSkill).findings[1]? =
      some ⟨.fail, "Hardcoded paths found: /home/user/docs", 0⟩ ∧
    (scorePortability winSkill).findings[1]? =
      some ⟨.fail, "Hardcoded paths found: C:\\Users\\name\\file", 0⟩ := by
  refine ⟨by decide, by decide, ?_, ?_⟩
  · have h : (scorePortability homeSkill).findings[1]? =
        some (portabilityCheckHardcoded homeDoc).2 := rfl
    have hf : (portabilityCheckHardcoded homeDoc).2 =
        ⟨.fail, "Hardcoded paths found: /home/user/docs", 0⟩ := by
      simp only [portabilityCheckHardcoded]
      rw [if_neg (by decide)]
      rfl
    rw [h, hf]
  · have h : (scorePortability winSkill).findings[1]? =
        some (portabilityCheckHardcoded winDoc).2 := rfl
    have hf : (portabilityCheckHardcoded winDoc).2 =
        ⟨.fail, "Hardcoded paths found: C:\\Users\\name\\file", 0⟩ := by
      simp only [portabilityCheckHardcoded]
      rw [if_neg (by decide)]
      rfl
    rw [h, hf]
